import Mathlib

/-!
Verification development for the madbirds repository (a 2D physics puzzle
game).  The definitions below are a shallow embedding of the physics engine
in src/js (physics.js section of main.js), of the entity model and the
slingshot (entities.js section of the unnamed source file), and of the
trajectory predictor in main.js.

Numbers are modelled as exact rationals.  The square root used by the
source (Math.sqrt, in Vec2.len and in the collision routines) is not a
rational operation, so every definition that needs it takes an explicit
function parameter f : Rat -> Rat standing for the square root; theorems
that depend on the value of a square root assume, pointwise at the squared
quantities actually passed to f, that f behaves as a true square root
(predicate SqrtOK below).  A second, separate embedding near the end of the
file extends the rationals with a NaN element in order to settle the claim
about non-finite values (C7).
-/

/-- physics.js: const pixelsPerMeter = 100. -/
def pixelsPerMeter : ℚ := 100

/-- physics.js: const GRAVITY_ACCEL = 9.81. -/
def GRAVITY_ACCEL : ℚ := 981/100

/-- physics.js: const GRAVITY = GRAVITY_ACCEL * pixelsPerMeter. -/
def GRAVITY : ℚ := GRAVITY_ACCEL * pixelsPerMeter

/-- physics.js: const TIME_STEP = 1 / 60. -/
def TIME_STEP : ℚ := 1/60

/-- physics.js: const FRICTION = 0.98 (linear damping factor per step). -/
def FRICTION : ℚ := 98/100

/-- physics.js: const RESTITUTION = 0.4 (default bounciness). -/
def RESTITUTION : ℚ := 2/5

/-- physics.js: const MIN_VELOCITY_FOR_SLEEP = 2.0. -/
def MIN_VELOCITY_FOR_SLEEP : ℚ := 2

/-- physics.js: const SLEEP_DELAY_FRAMES = 60. -/
def SLEEP_DELAY_FRAMES : ℚ := 60

/-- entities.js: export const LAUNCH_POWER = 21. -/
def LAUNCH_POWER : ℚ := 21

/-- entities.js: const BIRD_RADIUS = 20. -/
def BIRD_RADIUS : ℚ := 20

/-- physics.js: class Vec2 - immutable 2D vector. -/
structure Vec2 where
  x : ℚ
  y : ℚ
deriving DecidableEq, Repr

/-- Vec2.add. -/
def Vec2.add (v w : Vec2) : Vec2 := ⟨v.x + w.x, v.y + w.y⟩

/-- Vec2.sub. -/
def Vec2.sub (v w : Vec2) : Vec2 := ⟨v.x - w.x, v.y - w.y⟩

/-- Vec2.mul (scalar multiplication). -/
def Vec2.mul (v : Vec2) (s : ℚ) : Vec2 := ⟨v.x * s, v.y * s⟩

/-- Vec2.div: source returns the components divided by s when s is not 0,
and a fresh zero vector otherwise. -/
def Vec2.div (v : Vec2) (s : ℚ) : Vec2 :=
  if s ≠ 0 then ⟨v.x / s, v.y / s⟩ else ⟨0, 0⟩

/-- Vec2.dot. -/
def Vec2.dot (v w : Vec2) : ℚ := v.x * w.x + v.y * w.y

/-- Vec2.lenSq = dot with itself. -/
def Vec2.lenSq (v : Vec2) : ℚ := v.dot v

/-- Vec2.len = Math.sqrt(lenSq); the square root is the parameter f. -/
def Vec2.len (f : ℚ → ℚ) (v : Vec2) : ℚ := f v.lenSq

/-- Vec2.normalize: divides by the length when it is positive, otherwise
returns a fresh zero vector. -/
def Vec2.normalize (f : ℚ → ℚ) (v : Vec2) : Vec2 :=
  let l := v.len f
  if 0 < l then v.div l else ⟨0, 0⟩

/-- Vec2.zero. -/
def Vec2.zero : Vec2 := ⟨0, 0⟩

/-- f behaves as the real square root at the single input q. -/
def SqrtOK (f : ℚ → ℚ) (q : ℚ) : Prop := 0 ≤ f q ∧ f q * f q = q

/-- The collisionShape tagged union of entities.js: circle, aabb, or the
default shapeless tag ( type: none ). -/
inductive Shape where
  | circle (radius : ℚ)
  | aabb (width height : ℚ)
  | noShape
deriving DecidableEq, Repr

/-- Accessor for collisionShape.radius (only read on circle shapes). -/
def shapeRadius : Shape → ℚ
  | Shape.circle r => r
  | _ => 0

/-- Accessor for collisionShape.width (only read on aabb shapes). -/
def shapeWidth : Shape → ℚ
  | Shape.aabb w _ => w
  | _ => 0

/-- Accessor for collisionShape.height (only read on aabb shapes). -/
def shapeHeight : Shape → ℚ
  | Shape.aabb _ h => h
  | _ => 0

/-- entities.js: class Entity - the fields the physics engine reads and
writes.  The constructor defaults are isStatic=false, mass=1,
restitution=0.4, shape none, hp=100, damageThreshold=500,
canCollideStatic=false, canSleep=true. -/
structure Entity where
  position : Vec2
  velocity : Vec2
  isStatic : Bool
  mass : ℚ
  restitution : ℚ
  collisionShape : Shape
  isSleeping : Bool
  sleepTimer : ℚ
  canSleep : Bool
  markedForRemoval : Bool
  hp : ℚ
  maxHp : ℚ
  damageThreshold : ℚ
  canCollideStatic : Bool
deriving DecidableEq, Repr

/-- Entity.wake: isSleeping = false, sleepTimer = 0. -/
def Entity.wake (e : Entity) : Entity :=
  { e with isSleeping := false, sleepTimer := 0 }

/-- Entity.takeDamage: static entities are unaffected; otherwise hp is
reduced and the entity is destroyed (markedForRemoval) at hp <= 0. -/
def Entity.takeDamage (e : Entity) (amount : ℚ) : Entity :=
  if e.isStatic then e
  else
    let hp1 := e.hp - amount
    if hp1 ≤ 0 then { e with hp := hp1, markedForRemoval := true }
    else { e with hp := hp1 }

/-- Entity.onCollision(other, impulseMagnitude): wake, then apply damage
impulseMagnitude * 0.05 when the magnitude exceeds the damage threshold.
The other entity is not used by the base implementation, so it is omitted
here. -/
def Entity.onCollision (e : Entity) (impulseMagnitude : ℚ) : Entity :=
  let e1 := e.wake
  if e1.damageThreshold < impulseMagnitude then
    e1.takeDamage (impulseMagnitude * (1/20))
  else e1

/-- physics.js PhysicsWorld.checkCircleCircle: circles collide when the
squared distance of the centers is below the squared radius sum; the
returned normal points from a to b (fallback (1,0) at coincident centers)
and the penetration is the radius sum minus the distance. -/
def checkCircleCircle (f : ℚ → ℚ) (a b : Entity) : Option (Vec2 × ℚ) :=
  let r := shapeRadius a.collisionShape + shapeRadius b.collisionShape
  let distVec := b.position.sub a.position
  let distSq := distVec.lenSq
  if distSq < r * r then
    let dist := f distSq
    let normal := if 0 < dist then distVec.div dist else (⟨1, 0⟩ : Vec2)
    some (normal, r - dist)
  else none

/-- physics.js PhysicsWorld.checkAABBAABB: axis-aligned boxes collide when
both axis overlaps are positive; resolution is along the axis of smaller
overlap (the Y axis when the overlaps are equal), the normal sign on that
axis follows the sign of the center delta, defaulting to +1 at delta 0. -/
def checkAABBAABB (a b : Entity) : Option (Vec2 × ℚ) :=
  let halfAw := shapeWidth a.collisionShape / 2
  let halfAh := shapeHeight a.collisionShape / 2
  let halfBw := shapeWidth b.collisionShape / 2
  let halfBh := shapeHeight b.collisionShape / 2
  let vec := b.position.sub a.position
  let overlapX := (halfAw + halfBw) - |vec.x|
  let overlapY := (halfAh + halfBh) - |vec.y|
  if 0 < overlapX ∧ 0 < overlapY then
    if overlapX < overlapY then
      some (⟨if vec.x < 0 then -1 else 1, 0⟩, overlapX)
    else
      some (⟨0, if vec.y < 0 then -1 else 1⟩, overlapY)
  else none

/-- The vector from the closest point of the box to the circle center, as
computed inside physics.js PhysicsWorld.checkCircleAABB (vec minus the
clamped closest point). -/
def circleAABBDelta (circle aabb : Entity) : Vec2 :=
  let halfW := shapeWidth aabb.collisionShape / 2
  let halfH := shapeHeight aabb.collisionShape / 2
  let vec := circle.position.sub aabb.position
  let closestX := max (-halfW) (min vec.x halfW)
  let closestY := max (-halfH) (min vec.y halfH)
  vec.sub ⟨closestX, closestY⟩

/-- physics.js PhysicsWorld.checkCircleAABB: collide when the squared
distance from the circle center to the closest box point is below the
squared radius; the normal is that delta normalized, with the fallback
vec.normalize() when the circle center lies inside the box. -/
def checkCircleAABB (f : ℚ → ℚ) (circle aabb : Entity) : Option (Vec2 × ℚ) :=
  let radius := shapeRadius circle.collisionShape
  let delta := circleAABBDelta circle aabb
  let distSq := delta.lenSq
  if distSq < radius * radius then
    let dist := f distSq
    let normal :=
      if 0 < dist then delta.div dist
      else (circle.position.sub aabb.position).normalize f
    some (normal, radius - dist)
  else none

/-- physics.js PhysicsWorld.checkCollision: dispatch on the shape pair;
the aabb/circle case reuses checkCircleAABB with the operands swapped and
the normal negated; any other pair (a shapeless entity) never collides. -/
def checkCollision (f : ℚ → ℚ) (a b : Entity) : Option (Vec2 × ℚ) :=
  match a.collisionShape, b.collisionShape with
  | Shape.circle _, Shape.circle _ => checkCircleCircle f a b
  | Shape.aabb _ _, Shape.aabb _ _ => checkAABBAABB a b
  | Shape.circle _, Shape.aabb _ _ => checkCircleAABB f a b
  | Shape.aabb _ _, Shape.circle _ =>
      (checkCircleAABB f b a).map (fun np => (np.1.mul (-1), np.2))
  | _, _ => none

/-- The squared quantities the detection of the pair (a, b) passes to the
square-root function, used to phrase pointwise square-root hypotheses. -/
def sqrtCallArgs (a b : Entity) : List ℚ :=
  match a.collisionShape, b.collisionShape with
  | Shape.circle _, Shape.circle _ => [(b.position.sub a.position).lenSq]
  | Shape.circle _, Shape.aabb _ _ =>
      [(circleAABBDelta a b).lenSq, (a.position.sub b.position).lenSq]
  | Shape.aabb _ _, Shape.circle _ =>
      [(circleAABBDelta b a).lenSq, (b.position.sub a.position).lenSq]
  | _, _ => []

/-- A contact produced by detection: the source stores references to the
two entities plus normal and penetration; the references are modelled as
indices into the entity list of the world. -/
structure Contact where
  idxA : Nat
  idxB : Nat
  normal : Vec2
  penetration : ℚ
deriving DecidableEq, Repr

/-- The inner j-loop of PhysicsWorld.detectCollisions for a fixed first
entity a at index i, including the continue on a static first entity
without canCollideStatic and the skip of static-static and
sleeping-sleeping pairs. -/
def detectInner (f : ℚ → ℚ) (a : Entity) (es : List Entity) (i : Nat) :
    List Contact :=
  if a.isStatic && !a.canCollideStatic then []
  else
    ((List.range es.length).filter (fun j => decide (i < j))).filterMap
      (fun j =>
        match es[j]? with
        | some b =>
          if (a.isStatic && b.isStatic) || (a.isSleeping && b.isSleeping)
          then none
          else (checkCollision f a b).map
            (fun np =>
              { idxA := i, idxB := j, normal := np.1, penetration := np.2 })
        | _ => none)

/-- physics.js PhysicsWorld.detectCollisions: all ordered pairs i < j. -/
def detectCollisions (f : ℚ → ℚ) (es : List Entity) : List Contact :=
  (List.range es.length).flatMap
    (fun i =>
      match es[i]? with
      | some a => detectInner f a es i
      | _ => [])

/-- The body of the contact loop of physics.js PhysicsWorld.resolveCollisions
as a pure function on the two entities of one contact: wake, inverse
masses, positional correction, impulse, collision hooks.  The NaN guards
of the source are identities in this exact rational model (isNaN is
constantly false) and are therefore not represented here; they are studied
separately in the FEntity embedding below. -/
def resolvePair (f : ℚ → ℚ) (c : Contact) (a0 b0 : Entity) :
    Entity × Entity :=
  let a1 := if a0.isSleeping then a0.wake else a0
  let b1 := if b0.isSleeping then b0.wake else b0
  let invMassA := if 0 < a1.mass then 1 / a1.mass else 0
  let invMassB := if 0 < b1.mass then 1 / b1.mass else 0
  let totalInvMass := invMassA + invMassB
  if totalInvMass = 0 then (a1, b1)
  else
    let penetrationSlop : ℚ := 1/10
    let correctionPercent : ℚ := 4/5
    let correctionMagnitude :=
      (max (c.penetration - penetrationSlop) 0 /
        (if totalInvMass = 0 then 1/1000000000 else totalInvMass)) *
        correctionPercent
    let correction := c.normal.mul correctionMagnitude
    let a2 := if a1.isStatic then a1
      else { a1 with position := a1.position.sub (correction.mul invMassA) }
    let b2 := if b1.isStatic then b1
      else { b1 with position := b1.position.add (correction.mul invMassB) }
    let rv := b2.velocity.sub a2.velocity
    let velAlongNormal := rv.dot c.normal
    if 0 < velAlongNormal then (a2, b2)
    else
      let e := min a2.restitution b2.restitution
      let j := (-(1 + e) * velAlongNormal) /
        (if totalInvMass = 0 then 1/1000000000 else totalInvMass)
      let impulseVec := c.normal.mul j
      let a3 := if a2.isStatic then a2
        else { a2 with velocity := a2.velocity.sub (impulseVec.mul invMassA) }
      let b3 := if b2.isStatic then b2
        else { b2 with velocity := b2.velocity.add (impulseVec.mul invMassB) }
      let impulseMagnitude := f impulseVec.lenSq
      (a3.onCollision impulseMagnitude, b3.onCollision impulseMagnitude)

/-- One iteration of the contact loop acting on the entity list: the
in-place mutation of the two referenced entities is modelled by writing
the resolved pair back at the contact indices. -/
def resolveContact (f : ℚ → ℚ) (c : Contact) (es : List Entity) :
    List Entity :=
  match es[c.idxA]?, es[c.idxB]? with
  | some a0, some b0 =>
      let p := resolvePair f c a0 b0
      (es.set c.idxA p.1).set c.idxB p.2
  | _, _ => es

/-- physics.js PhysicsWorld.resolveCollisions: the contact loop (the dt
parameter of the source is unused by the resolution itself). -/
def resolveCollisions (f : ℚ → ℚ) (cs : List Contact) (es : List Entity) :
    List Entity :=
  cs.foldl (fun acc c => resolveContact f c acc) es

/-- physics.js PhysicsWorld.applyForces for one entity: skip static or
sleeping entities; gravity only with positive mass; unconditional linear
damping. -/
def applyForcesOne (dt : ℚ) (e : Entity) : Entity :=
  if e.isStatic || e.isSleeping then e
  else
    let v1 := if 0 < e.mass then e.velocity.add ⟨0, GRAVITY * dt⟩
      else e.velocity
    { e with velocity := v1.mul FRICTION }

/-- physics.js PhysicsWorld.applyForces over the entity list. -/
def applyForces (dt : ℚ) (es : List Entity) : List Entity :=
  es.map (applyForcesOne dt)

/-- physics.js PhysicsWorld.integrate for one entity: skip static or
sleeping entities, otherwise position += velocity * dt.  The subsequent
NaN check of the source only logs and never modifies the entity, so it
contributes nothing here. -/
def integrateOne (dt : ℚ) (e : Entity) : Entity :=
  if e.isStatic || e.isSleeping then e
  else { e with position := e.position.add (e.velocity.mul dt) }

/-- physics.js PhysicsWorld.integrate over the entity list. -/
def integrate (dt : ℚ) (es : List Entity) : List Entity :=
  es.map (integrateOne dt)

/-- physics.js PhysicsWorld.updateSleepState for one entity: skip static
or non-sleepable entities; below the speed threshold the sleep timer
accumulates and the entity falls asleep (velocity zeroed) once the timer
reaches the delay; otherwise wake. -/
def updateSleepOne (dt : ℚ) (e : Entity) : Entity :=
  if e.isStatic || !e.canSleep then e
  else
    let speedSq := e.velocity.lenSq
    if speedSq < MIN_VELOCITY_FOR_SLEEP * MIN_VELOCITY_FOR_SLEEP then
      let t := e.sleepTimer + dt
      if SLEEP_DELAY_FRAMES * TIME_STEP ≤ t then
        { e with sleepTimer := t, isSleeping := true, velocity := Vec2.zero }
      else { e with sleepTimer := t }
    else e.wake

/-- physics.js PhysicsWorld.updateSleepState over the entity list. -/
def updateSleepState (dt : ℚ) (es : List Entity) : List Entity :=
  es.map (updateSleepOne dt)

/-- One detection plus resolution pass (the body of the sub-step loop of
PhysicsWorld.update). -/
def physicsSubStep (f : ℚ → ℚ) (es : List Entity) : List Entity :=
  resolveCollisions f (detectCollisions f es) es

/-- physics.js PhysicsWorld.update: forces, integration, 8 collision
sub-steps, sleep update. -/
def worldUpdate (f : ℚ → ℚ) (dt : ℚ) (es : List Entity) : List Entity :=
  updateSleepState dt ((physicsSubStep f)^[8] (integrate dt (applyForces dt es)))

/-- One loop iteration of main.js simulateTrajectory acting on the pair
(position, velocity): gravity, damping, integration, with the constants
of the physics engine. -/
def trajStep (pv : Vec2 × Vec2) : Vec2 × Vec2 :=
  let vel := (pv.2.add ⟨0, GRAVITY * TIME_STEP⟩).mul FRICTION
  (pv.1.add (vel.mul TIME_STEP), vel)

/-- The simulated point of the trajectory predictor after k internal
steps. -/
def trajPoint (k : Nat) (startPos startVel : Vec2) : Vec2 :=
  (trajStep^[k] (startPos, startVel)).1

/-- The loop of main.js simulateTrajectory: fuel counts the remaining
steps, i is the running loop index (for the sampling of every third
point), acc the sampled points collected so far.  The loop stops when the
point passes the ground line or leaves the horizontal bounds. -/
def simulateTrajectoryAux (cw ch : ℚ) :
    Nat → Nat → Vec2 → Vec2 → List Vec2 → List Vec2
  | 0, _, _, _, acc => acc
  | Nat.succ fuel, i, pos, vel, acc =>
    let pv := trajStep (pos, vel)
    let pos1 := pv.1
    let vel1 := pv.2
    let acc1 := if i % 3 = 0 then acc ++ [pos1] else acc
    let groundY := ch - 50
    if groundY < pos1.y then
      let lastAboveGround : Bool :=
        match acc1.getLast? with
        | some p => decide (p.y < groundY)
        | _ => true
      if lastAboveGround then acc1 ++ [⟨pos1.x, groundY⟩] else acc1
    else if pos1.x < -100 ∨ cw + 100 < pos1.x then acc1
    else simulateTrajectoryAux cw ch fuel (i + 1) pos1 vel1 acc1

/-- main.js simulateTrajectory(startPos, startVel, steps = 150): starts
from the initial position and replays the force and integration formulas
of the stepper without collision detection; cw and ch are the canvas
width and height. -/
def simulateTrajectory (cw ch : ℚ) (startPos startVel : Vec2) (steps : Nat) :
    List Vec2 :=
  simulateTrajectoryAux cw ch steps 0 startPos startVel [startPos]

/-- The state machine of entities.js class Bird. -/
inductive BirdState where
  | idle
  | aiming
  | flying
  | landed
deriving DecidableEq, Repr

/-- The fields of entities.js class Bird that the slingshot interacts
with (radius is the collision shape radius, BIRD_RADIUS = 20 for a real
bird). -/
structure Bird where
  position : Vec2
  velocity : Vec2
  state : BirdState
  isSleeping : Bool
  sleepTimer : ℚ
  radius : ℚ
deriving DecidableEq, Repr

/-- Bird.launch(forceVector): only from the aiming state; the velocity is
the force vector scaled by LAUNCH_POWER times the first-step damping
pre-compensation 1/FRICTION; the state becomes flying and the bird is
woken. -/
def Bird.launch (bird : Bird) (forceVector : Vec2) : Bird :=
  if bird.state = BirdState.aiming then
    { bird with
      velocity := forceVector.mul (LAUNCH_POWER * (1 / FRICTION)),
      state := BirdState.flying,
      isSleeping := false,
      sleepTimer := 0 }
  else bird

/-- entities.js class Slingshot: base position, anchor offsets, elastic
length, the optionally held bird and the drag positions.  The held bird
is stored inline (the source holds a reference to the bird object). -/
structure Slingshot where
  position : Vec2
  anchorOffsetBack : Vec2
  anchorOffsetFront : Vec2
  elasticLength : ℚ
  elasticity : ℚ
  aimingBird : Option Bird
  dragStartPos : Option Vec2
  dragCurrentPos : Option Vec2
deriving DecidableEq, Repr

/-- The Slingshot constructor at base position (x, y). -/
def Slingshot.init (x y : ℚ) : Slingshot :=
  { position := ⟨x, y⟩
    anchorOffsetBack := ⟨-10, 5⟩
    anchorOffsetFront := ⟨10, 5⟩
    elasticLength := 80
    elasticity := 1/10
    aimingBird := none
    dragStartPos := none
    dragCurrentPos := none }

/-- Slingshot.anchorFrontPos getter. -/
def Slingshot.anchorFrontPos (s : Slingshot) : Vec2 :=
  s.position.add s.anchorOffsetFront

/-- Slingshot.attachBird: only when no bird is held; snaps the bird to the
front anchor shifted up by BIRD_RADIUS, zeroes its velocity, wakes it and
puts it in the aiming state. -/
def Slingshot.attachBird (s : Slingshot) (bird : Bird) : Slingshot :=
  match s.aimingBird with
  | some _ => s
  | _ =>
    let bird1 :=
      { bird with
        state := BirdState.aiming,
        position := s.anchorFrontPos.add ⟨0, -BIRD_RADIUS⟩,
        velocity := Vec2.zero,
        isSleeping := false,
        sleepTimer := 0 }
    { s with aimingBird := some bird1 }

/-- Slingshot.startAim(pointerPos): begins a drag (returning true) only
when a bird is held and the pointer is within 1.5 times the bird radius
of the bird position. -/
def Slingshot.startAim (s : Slingshot) (pointerPos : Vec2) :
    Slingshot × Bool :=
  match s.aimingBird with
  | some bird =>
    if (pointerPos.sub bird.position).lenSq <
        (bird.radius * (3/2)) * (bird.radius * (3/2)) then
      ({ s with dragStartPos := some pointerPos,
                dragCurrentPos := some pointerPos }, true)
    else (s, false)
  | _ => (s, false)

/-- Slingshot.updateAim(pointerPos): with a held bird and a started drag,
moves the bird to anchorFront + (0, -BIRD_RADIUS) + dragVector, clamped
to elasticLength from the front anchor; clamping uses the length and the
normalization of the source, hence the square root parameter f. -/
def Slingshot.updateAim (f : ℚ → ℚ) (s : Slingshot) (pointerPos : Vec2) :
    Slingshot :=
  match s.aimingBird, s.dragStartPos with
  | some bird, some ds =>
    let dragVector := pointerPos.sub ds
    let targetPos0 := (s.anchorFrontPos.add ⟨0, -BIRD_RADIUS⟩).add dragVector
    let fromAnchor := targetPos0.sub s.anchorFrontPos
    let dist := fromAnchor.len f
    let targetPos :=
      if s.elasticLength < dist then
        s.anchorFrontPos.add ((fromAnchor.normalize f).mul s.elasticLength)
      else targetPos0
    { s with dragCurrentPos := some pointerPos,
             aimingBird := some { bird with position := targetPos } }
  | _, _ => s

/-- Slingshot.getLaunchVelocity: the raw unscaled vector
anchorFrontPos - bird.position when a bird is held and a drag was
started, otherwise the zero vector. -/
def Slingshot.getLaunchVelocity (s : Slingshot) : Vec2 :=
  match s.aimingBird, s.dragStartPos with
  | some bird, some _ => s.anchorFrontPos.sub bird.position
  | _, _ => Vec2.zero

/-- Slingshot.endAim: launches the held bird when the raw launch vector
has positive squared length, and clears the aim state in every case.
The middle component of the result models the external currentBird
reference of main.js: the (possibly launched) bird object that survives
the release. -/
def Slingshot.endAim (s : Slingshot) : Slingshot × Option Bird × Bool :=
  let cleared := { s with aimingBird := none,
                          dragStartPos := none,
                          dragCurrentPos := none }
  match s.aimingBird, s.dragStartPos with
  | some bird, some _ =>
    let launchVelocity := s.getLaunchVelocity
    if 0 < launchVelocity.lenSq then
      (cleared, some (bird.launch launchVelocity), true)
    else (cleared, some bird, false)
  | _, _ => (cleared, s.aimingBird, false)

/-!
The remaining definitions re-embed the two NaN-relevant routines of
physics.js over the JS number model FNum: an exact rational, or the NaN
element (Option.none).  Arithmetic propagates NaN as in IEEE; every
comparison involving NaN is false, as in JS.  Infinities, which arise in
floats only through overflow or division by zero, are outside this exact
model.
-/

/-- A JS number for the NaN analysis: some rational, or NaN (none). -/
abbrev FNum := Option ℚ

/-- NaN-propagating addition. -/
def fadd : FNum → FNum → FNum
  | some a, some b => some (a + b)
  | _, _ => none

/-- NaN-propagating subtraction. -/
def fsub : FNum → FNum → FNum
  | some a, some b => some (a - b)
  | _, _ => none

/-- NaN-propagating multiplication. -/
def fmul : FNum → FNum → FNum
  | some a, some b => some (a * b)
  | _, _ => none

/-- NaN-propagating negation. -/
def fneg : FNum → FNum
  | some a => some (-a)
  | _ => none

/-- NaN-propagating division; division by zero (an infinity or NaN in JS)
is collapsed to NaN in this model. -/
def fdiv : FNum → FNum → FNum
  | some a, some b => if b = 0 then none else some (a / b)
  | _, _ => none

/-- Math.max with NaN propagation. -/
def fmax : FNum → FNum → FNum
  | some a, some b => some (max a b)
  | _, _ => none

/-- Math.min with NaN propagation. -/
def fmin : FNum → FNum → FNum
  | some a, some b => some (min a b)
  | _, _ => none

/-- The JS comparison b < a; false whenever either side is NaN. -/
def fgt (a b : FNum) : Bool :=
  match a, b with
  | some a, some b => decide (b < a)
  | _, _ => false

/-- The JS comparison a <= b; false whenever either side is NaN. -/
def fle (a b : FNum) : Bool :=
  match a, b with
  | some a, some b => decide (a ≤ b)
  | _, _ => false

/-- The JS pattern (x || d) for a numeric x with fallback d: both 0 and
NaN are falsy. -/
def forElse (a : FNum) (d : ℚ) : FNum :=
  match a with
  | some q => if q = 0 then some d else some q
  | _ => some d

/-- The JS strict equality x === 0. -/
def fIsZero (a : FNum) : Bool := a = some 0

/-- The JS isNaN test. -/
def fIsNaN (a : FNum) : Bool := a.isNone

/-- A 2D vector of JS numbers. -/
structure FVec2 where
  x : FNum
  y : FNum
deriving DecidableEq, Repr

/-- Vec2.add over FNum. -/
def FVec2.fvadd (v w : FVec2) : FVec2 := ⟨fadd v.x w.x, fadd v.y w.y⟩

/-- Vec2.sub over FNum. -/
def FVec2.fvsub (v w : FVec2) : FVec2 := ⟨fsub v.x w.x, fsub v.y w.y⟩

/-- Vec2.mul over FNum. -/
def FVec2.fvmul (v : FVec2) (s : FNum) : FVec2 := ⟨fmul v.x s, fmul v.y s⟩

/-- Vec2.dot over FNum. -/
def FVec2.fvdot (v w : FVec2) : FNum := fadd (fmul v.x w.x) (fmul v.y w.y)

/-- Vec2.lenSq over FNum. -/
def FVec2.fvlenSq (v : FVec2) : FNum := v.fvdot v

/-- Neither component of the vector is NaN. -/
def FVec2.finite (v : FVec2) : Prop := v.x.isSome = true ∧ v.y.isSome = true

/-- The entity fields touched by integration and contact resolution, with
JS-number (FNum) numeric fields. -/
structure FEntity where
  position : FVec2
  velocity : FVec2
  isStatic : Bool
  isSleeping : Bool
  sleepTimer : FNum
  mass : FNum
  restitution : FNum
  hp : FNum
  damageThreshold : FNum
  markedForRemoval : Bool
deriving DecidableEq, Repr

/-- Entity.wake over FNum. -/
def FEntity.wake (e : FEntity) : FEntity :=
  { e with isSleeping := false, sleepTimer := some 0 }

/-- Entity.takeDamage over FNum (the hp <= 0 comparison is false at
NaN, as in JS). -/
def FEntity.takeDamage (e : FEntity) (amount : FNum) : FEntity :=
  if e.isStatic then e
  else
    let hp1 := fsub e.hp amount
    if fle hp1 (some 0) then { e with hp := hp1, markedForRemoval := true }
    else { e with hp := hp1 }

/-- Entity.onCollision over FNum. -/
def FEntity.onCollision (e : FEntity) (impulseMagnitude : FNum) : FEntity :=
  let e1 := e.wake
  if fgt impulseMagnitude e1.damageThreshold then
    e1.takeDamage (fmul impulseMagnitude (some (1/20)))
  else e1

/-- The position and the velocity of the entity are NaN-free. -/
def FEntity.finitePV (e : FEntity) : Prop :=
  e.position.finite ∧ e.velocity.finite

/-- physics.js PhysicsWorld.integrate over FNum: position += velocity*dt
for awake dynamic entities.  The NaN check that follows in the source
only logs a warning and leaves the entity untouched (the reset is
commented out), so the new position stands even when it is NaN. -/
def fintegrate (dt : ℚ) (es : List FEntity) : List FEntity :=
  es.map (fun e =>
    if e.isStatic || e.isSleeping then e
    else { e with position := e.position.fvadd (e.velocity.fvmul (some dt)) })

/-- The body of the resolveCollisions contact loop over FNum, including
the two isNaN guards of the source: a position made NaN by the positional
correction reverts to the pre-correction position, and a velocity made
NaN by the impulse reverts to the pre-impulse velocity. -/
def fresolvePair (fs : FNum → FNum) (normal : FVec2) (penetration : FNum)
    (a0 b0 : FEntity) : FEntity × FEntity :=
  let a1 := if a0.isSleeping then a0.wake else a0
  let b1 := if b0.isSleeping then b0.wake else b0
  let invMassA := if fgt a1.mass (some 0) then fdiv (some 1) a1.mass
    else some 0
  let invMassB := if fgt b1.mass (some 0) then fdiv (some 1) b1.mass
    else some 0
  let totalInvMass := fadd invMassA invMassB
  if fIsZero totalInvMass then (a1, b1)
  else
    let correctionMagnitude :=
      fmul (fdiv (fmax (fsub penetration (some (1/10))) (some 0))
        (forElse totalInvMass (1/1000000000))) (some (4/5))
    let correction := normal.fvmul correctionMagnitude
    let a2 := if a1.isStatic then a1
      else { a1 with position := a1.position.fvsub (correction.fvmul invMassA) }
    let a3 := if fIsNaN a2.position.x || fIsNaN a2.position.y then
        { a2 with position := a1.position }
      else a2
    let b2 := if b1.isStatic then b1
      else { b1 with position := b1.position.fvadd (correction.fvmul invMassB) }
    let b3 := if fIsNaN b2.position.x || fIsNaN b2.position.y then
        { b2 with position := b1.position }
      else b2
    let rv := b3.velocity.fvsub a3.velocity
    let velAlongNormal := rv.fvdot normal
    if fgt velAlongNormal (some 0) then (a3, b3)
    else
      let e := fmin a3.restitution b3.restitution
      let j := fdiv (fmul (fneg (fadd (some 1) e)) velAlongNormal)
        (forElse totalInvMass (1/1000000000))
      let impulseVec := normal.fvmul j
      let a4 := if a3.isStatic then a3
        else { a3 with velocity := a3.velocity.fvsub (impulseVec.fvmul invMassA) }
      let a5 := if fIsNaN a4.velocity.x || fIsNaN a4.velocity.y then
          { a4 with velocity := a3.velocity }
        else a4
      let b4 := if b3.isStatic then b3
        else { b3 with velocity := b3.velocity.fvadd (impulseVec.fvmul invMassB) }
      let b5 := if fIsNaN b4.velocity.x || fIsNaN b4.velocity.y then
          { b4 with velocity := b3.velocity }
        else b4
      let impulseMagnitude := fs impulseVec.fvlenSq
      (a5.onCollision impulseMagnitude, b5.onCollision impulseMagnitude)

/-- One contact of the resolveCollisions loop over FNum, written back at
the indices of the two referenced entities. -/
def fresolveContact (fs : FNum → FNum) (i j : Nat) (normal : FVec2)
    (penetration : FNum) (es : List FEntity) : List FEntity :=
  match es[i]?, es[j]? with
  | some a0, some b0 =>
      let p := fresolvePair fs normal penetration a0 b0
      (es.set i p.1).set j p.2
  | _, _ => es

/-! Helper lemmas about the vector embedding. -/

theorem Vec2.lenSq_nonneg (v : Vec2) : 0 ≤ v.lenSq := by
  unfold Vec2.lenSq Vec2.dot
  nlinarith [mul_self_nonneg v.x, mul_self_nonneg v.y]

theorem Vec2.lenSq_eq_zero_iff (v : Vec2) : v.lenSq = 0 ↔ v = ⟨0, 0⟩ := by
  unfold Vec2.lenSq Vec2.dot
  constructor
  · intro h
    have hx : v.x = 0 := by nlinarith [mul_self_nonneg v.x, mul_self_nonneg v.y]
    have hy : v.y = 0 := by nlinarith [mul_self_nonneg v.x, mul_self_nonneg v.y]
    cases v
    simp_all
  · intro h
    rw [h]
    norm_num

theorem Vec2.sub_eq_zero_iff (v w : Vec2) : v.sub w = ⟨0, 0⟩ ↔ v = w := by
  cases v
  cases w
  simp [Vec2.sub, Vec2.mk.injEq, sub_eq_zero]

theorem Vec2.lenSq_div (v : Vec2) (s : ℚ) (hs : s ≠ 0) :
    (v.div s).lenSq = v.lenSq / (s * s) := by
  unfold Vec2.div Vec2.lenSq Vec2.dot
  rw [if_pos hs]
  field_simp

theorem Vec2.lenSq_mul (v : Vec2) (s : ℚ) :
    (v.mul s).lenSq = v.lenSq * (s * s) := by
  unfold Vec2.mul Vec2.lenSq Vec2.dot
  ring

/-- Claim C6: for a non-static body receiving a collision callback, an
impulse magnitude strictly above the damage threshold reduces health by
exactly impulseMagnitude * 0.05 (and an impulse at or below the threshold
leaves health unchanged); the body becomes markedForRemoval exactly when
such damage takes its health to a value at or below zero, and never while
its health stays positive. -/
theorem c6_collision_damage (e : Entity) (mag : ℚ)
    (hstat : e.isStatic = false) (hmk : e.markedForRemoval = false) :
    ((e.onCollision mag).hp =
      if e.damageThreshold < mag then e.hp - mag * (1/20) else e.hp) ∧
    ((e.onCollision mag).markedForRemoval = true ↔
      (e.damageThreshold < mag ∧ e.hp - mag * (1/20) ≤ 0)) := by
  unfold Entity.onCollision Entity.takeDamage Entity.wake
  dsimp only
  split_ifs <;> simp_all

/-- Witness for c6_collision_damage at a concrete entity: threshold 100,
health 10, impulse 300, so damage 15 drives health to -5 and marks the
body for removal. -/
theorem c6_collision_damage_witness :
    (((⟨⟨0, 0⟩, ⟨0, 0⟩, false, 1, 1, Shape.circle 20, false, 0, true,
        false, 10, 10, 100, false⟩ : Entity).onCollision 300).hp =
      if (100 : ℚ) < 300 then 10 - 300 * (1/20) else 10) ∧
    ((((⟨⟨0, 0⟩, ⟨0, 0⟩, false, 1, 1, Shape.circle 20, false, 0, true,
        false, 10, 10, 100, false⟩ : Entity).onCollision 300).markedForRemoval
        = true) ↔
      ((100 : ℚ) < 300 ∧ (10 : ℚ) - 300 * (1/20) ≤ 0)) :=
  c6_collision_damage _ 300 rfl rfl

/-- A concrete 4x4 dynamic box at the origin. -/
def c3boxA : Entity :=
  ⟨⟨0, 0⟩, ⟨0, 0⟩, false, 1, 2/5, Shape.aabb 4 4, false, 0, true, false,
    100, 100, 500, false⟩

/-- A concrete 4x4 dynamic box at (2, 2): both axis overlaps with c3boxA
equal 2. -/
def c3boxB : Entity :=
  ⟨⟨2, 2⟩, ⟨0, 0⟩, false, 1, 2/5, Shape.aabb 4 4, false, 0, true, false,
    100, 100, 500, false⟩

/-- Counterexample to claim C3 as stated: for the boxes c3boxA and c3boxB
the two axis overlaps are exactly equal (both 2), yet detection resolves
along the Y axis, returning normal (0, 1) - not an X-axis normal (1, 0)
or (-1, 0) as the claimed X tie-break would require. -/
theorem c3_tiebreak_counterexample :
    ((4/2 + 4/2 : ℚ) - |(c3boxB.position.sub c3boxA.position).x| =
      (4/2 + 4/2 : ℚ) - |(c3boxB.position.sub c3boxA.position).y|) ∧
    checkAABBAABB c3boxA c3boxB = some (⟨0, 1⟩, 2) ∧
    (⟨0, 1⟩ : Vec2) ≠ ⟨1, 0⟩ ∧ (⟨0, 1⟩ : Vec2) ≠ ⟨-1, 0⟩ := by
  refine ⟨by norm_num [c3boxA, c3boxB, Vec2.sub], ?_,
    by simp [Vec2.mk.injEq], by simp [Vec2.mk.injEq]⟩
  norm_num [checkAABBAABB, c3boxA, c3boxB, Vec2.sub, shapeWidth, shapeHeight]

/-- Claim C3 (amended: the Y axis, not the X axis, is chosen when the two
overlaps are exactly equal): for overlapping boxes (both axis overlaps
positive), resolution is along the axis of strictly smaller overlap, with
Y chosen on equality; the normal sign on the chosen axis is the sign of
the center delta on that axis, defaulting to +1 when the delta is exactly
0, and the penetration is the chosen overlap. -/
theorem c3_aabb_resolution (a b : Entity) (wa ka wb kb : ℚ)
    (hA : a.collisionShape = Shape.aabb wa ka)
    (hB : b.collisionShape = Shape.aabb wb kb)
    (hx : 0 < (wa/2 + wb/2) - |(b.position.sub a.position).x|)
    (hy : 0 < (ka/2 + kb/2) - |(b.position.sub a.position).y|) :
    (((wa/2 + wb/2) - |(b.position.sub a.position).x| <
        (ka/2 + kb/2) - |(b.position.sub a.position).y|) →
      checkAABBAABB a b =
        some (⟨if (b.position.sub a.position).x < 0 then -1 else 1, 0⟩,
          (wa/2 + wb/2) - |(b.position.sub a.position).x|)) ∧
    (((ka/2 + kb/2) - |(b.position.sub a.position).y| ≤
        (wa/2 + wb/2) - |(b.position.sub a.position).x|) →
      checkAABBAABB a b =
        some (⟨0, if (b.position.sub a.position).y < 0 then -1 else 1⟩,
          (ka/2 + kb/2) - |(b.position.sub a.position).y|)) := by
  unfold checkAABBAABB
  rw [hA, hB]
  dsimp only [shapeWidth, shapeHeight]
  constructor
  · intro hlt
    rw [if_pos ⟨hx, hy⟩, if_pos hlt]
  · intro hle
    rw [if_pos ⟨hx, hy⟩, if_neg (not_lt.mpr hle)]

/-- Witness for c3_aabb_resolution: a 4x4 box at the origin against a 4x4
box at (2, 1): overlap 2 on X, overlap 3 on Y, resolved along X with
normal (1, 0). -/
theorem c3_aabb_resolution_witness :
    (0 < (4/2 + 4/2 : ℚ) -
      |(((⟨⟨2, 1⟩, ⟨0, 0⟩, false, 1, 2/5, Shape.aabb 4 4, false, 0, true,
          false, 100, 100, 500, false⟩ : Entity)).position.sub
        c3boxA.position).x|) ∧
    (((4/2 + 4/2 : ℚ) -
        |(((⟨⟨2, 1⟩, ⟨0, 0⟩, false, 1, 2/5, Shape.aabb 4 4, false, 0, true,
            false, 100, 100, 500, false⟩ : Entity)).position.sub
          c3boxA.position).x| <
        (4/2 + 4/2 : ℚ) -
        |(((⟨⟨2, 1⟩, ⟨0, 0⟩, false, 1, 2/5, Shape.aabb 4 4, false, 0, true,
            false, 100, 100, 500, false⟩ : Entity)).position.sub
          c3boxA.position).y|) →
      checkAABBAABB c3boxA
        (⟨⟨2, 1⟩, ⟨0, 0⟩, false, 1, 2/5, Shape.aabb 4 4, false, 0, true,
          false, 100, 100, 500, false⟩ : Entity) =
        some (⟨if (((⟨⟨2, 1⟩, ⟨0, 0⟩, false, 1, 2/5, Shape.aabb 4 4, false,
            0, true, false, 100, 100, 500, false⟩ : Entity)).position.sub
            c3boxA.position).x < 0 then -1 else 1, 0⟩,
          (4/2 + 4/2 : ℚ) -
          |(((⟨⟨2, 1⟩, ⟨0, 0⟩, false, 1, 2/5, Shape.aabb 4 4, false, 0,
              true, false, 100, 100, 500, false⟩ : Entity)).position.sub
            c3boxA.position).x|)) :=
  ⟨by norm_num [c3boxA, Vec2.sub],
    (c3_aabb_resolution c3boxA _ 4 4 4 4 rfl rfl
      (by norm_num [c3boxA, Vec2.sub])
      (by norm_num [c3boxA, Vec2.sub])).1⟩

/-- Structure of every detected contact: the first index is strictly below
the second, and the entity at the first index passed the outer loop filter
(it is not a static entity with canCollideStatic unset). -/
theorem mem_detectCollisions (f : ℚ → ℚ) (es : List Entity) (c : Contact)
    (hc : c ∈ detectCollisions f es) :
    c.idxA < c.idxB ∧ ∃ a, es[c.idxA]? = some a ∧
      (a.isStatic && !a.canCollideStatic) = false := by
  unfold detectCollisions at hc
  rw [List.mem_flatMap] at hc
  obtain ⟨i, hi, hc⟩ := hc
  cases h : es[i]? with
  | none => rw [h] at hc; dsimp only at hc; simp at hc
  | some a =>
    rw [h] at hc
    dsimp only at hc
    unfold detectInner at hc
    by_cases hskip : (a.isStatic && !a.canCollideStatic) = true
    · rw [if_pos hskip] at hc
      simp at hc
    · rw [if_neg hskip] at hc
      rw [List.mem_filterMap] at hc
      obtain ⟨j, hj, hcj⟩ := hc
      rw [List.mem_filter] at hj
      obtain ⟨hjr, hij⟩ := hj
      cases hb : es[j]? with
      | none => rw [hb] at hcj; dsimp only at hcj; simp at hcj
      | some b =>
        rw [hb] at hcj
        dsimp only at hcj
        by_cases hsk2 :
            ((a.isStatic && b.isStatic) || (a.isSleeping && b.isSleeping))
            = true
        · rw [if_pos hsk2] at hcj
          simp at hcj
        · rw [if_neg hsk2] at hcj
          rw [Option.map_eq_some'] at hcj
          obtain ⟨np, _, hnp⟩ := hcj
          subst hnp
          refine ⟨by simpa using hij, a, by simpa using h, by simpa using hskip⟩

/-- Claim C10: when the entity at the smaller index of a pair is static
with canCollideStatic = false, detection generates no contact for that
pair, whatever the other entity is; in particular a dynamic body added to
the world after such a static body never produces a contact with it. -/
theorem c10_static_first_no_contact (f : ℚ → ℚ) (es : List Entity)
    (i j : Nat) (e : Entity) (hij : i < j) (hei : es[i]? = some e)
    (hstat : e.isStatic = true) (hccs : e.canCollideStatic = false) :
    ∀ c ∈ detectCollisions f es,
      ¬((c.idxA = i ∧ c.idxB = j) ∨ (c.idxA = j ∧ c.idxB = i)) := by
  intro c hc
  obtain ⟨hlt, a, ha, hskip⟩ := mem_detectCollisions f es c hc
  rintro (⟨h1, h2⟩ | ⟨h1, h2⟩)
  · rw [h1] at ha
    rw [hei] at ha
    injection ha with ha
    rw [← ha, hstat, hccs] at hskip
    simp at hskip
  · rw [h1, h2] at hlt
    exact absurd hij (Nat.lt_asymm hlt)

/-- A concrete static stone ground block (canCollideStatic false, as built
by the Block constructor) for the C10 witness. -/
def c10ground : Entity :=
  ⟨⟨640, 745⟩, ⟨0, 0⟩, true, 0, 1/5, Shape.aabb 1280 50, false, 0, false,
    false, 300, 300, 600, false⟩

/-- A concrete dynamic bird overlapping the ground, registered after it,
for the C10 witness. -/
def c10bird : Entity :=
  ⟨⟨640, 730⟩, ⟨0, 0⟩, false, 5, 2/5, Shape.circle 20, false, 0, true,
    false, 50, 50, 100, false⟩

/-- Witness for c10_static_first_no_contact: the static ground at index 0
and an overlapping dynamic bird at index 1 yield no contact for the pair
(0, 1). -/
theorem c10_static_first_no_contact_witness :
    (0 < 1 ∧ [c10ground, c10bird][0]? = some c10ground ∧
      c10ground.isStatic = true ∧ c10ground.canCollideStatic = false) ∧
    (∀ c ∈ detectCollisions (fun _ => 0) [c10ground, c10bird],
      ¬((c.idxA = 0 ∧ c.idxB = 1) ∨ (c.idxA = 1 ∧ c.idxB = 0))) :=
  ⟨⟨Nat.zero_lt_one, rfl, rfl, rfl⟩,
    c10_static_first_no_contact (fun _ => 0) [c10ground, c10bird] 0 1
      c10ground Nat.zero_lt_one rfl rfl rfl⟩

/-- Claim C2: circle-circle detection returns a contact exactly when the
distance between centers is strictly below the sum of the radii; the
penetration of a returned contact is (r1 + r2) - distance and its normal
is (centerB - centerA) divided by the distance, with fallback (1, 0) when
the centers coincide.  The square root f is assumed correct at the one
squared distance this call computes. -/
theorem c2_circle_circle (f : ℚ → ℚ) (a b : Entity) (ra rb : ℚ)
    (hA : a.collisionShape = Shape.circle ra)
    (hB : b.collisionShape = Shape.circle rb)
    (hra : 0 ≤ ra) (hrb : 0 ≤ rb)
    (hf : SqrtOK f ((b.position.sub a.position).lenSq)) :
    ((∃ np, checkCircleCircle f a b = some np) ↔
      f ((b.position.sub a.position).lenSq) < ra + rb) ∧
    (∀ n p, checkCircleCircle f a b = some (n, p) →
      p = (ra + rb) - f ((b.position.sub a.position).lenSq) ∧
      (b.position = a.position → n = ⟨1, 0⟩) ∧
      (b.position ≠ a.position →
        n = (b.position.sub a.position).div
          (f ((b.position.sub a.position).lenSq)))) := by
  obtain ⟨hd0, hdd⟩ := hf
  set dSq := (b.position.sub a.position).lenSq with hdSq
  set d := f dSq with hd
  have hr : 0 ≤ ra + rb := by linarith
  have hiff : dSq < (ra + rb) * (ra + rb) ↔ d < ra + rb := by
    constructor
    · intro h
      by_contra hcon
      push_neg at hcon
      nlinarith
    · intro h
      nlinarith
  unfold checkCircleCircle
  rw [hA, hB]
  dsimp only [shapeRadius]
  rw [← hdSq, ← hd]
  by_cases hlt : dSq < (ra + rb) * (ra + rb)
  · rw [if_pos hlt]
    constructor
    · constructor
      · intro _
        exact hiff.mp hlt
      · intro _
        exact ⟨_, rfl⟩
    · intro n p hnp
      rw [Option.some.injEq, Prod.mk.injEq] at hnp
      obtain ⟨hn0, hp0⟩ := hnp
      have hn : n = (if 0 < d then (b.position.sub a.position).div d
          else (⟨1, 0⟩ : Vec2)) := hn0.symm
      refine ⟨hp0.symm, ?_, ?_⟩
      · intro heq
        have hz : dSq = 0 := by
          rw [hdSq, heq]
          simp [Vec2.lenSq_eq_zero_iff, Vec2.sub_eq_zero_iff]
        have hdz : d = 0 := by nlinarith
        rw [hn, if_neg (by rw [hdz]; exact lt_irrefl 0)]
      · intro hne
        have hz : dSq ≠ 0 := by
          rw [hdSq]
          intro hcon
          exact hne ((Vec2.sub_eq_zero_iff _ _).mp
            ((Vec2.lenSq_eq_zero_iff _).mp hcon))
        have hpos : 0 < d := by
          rcases lt_or_eq_of_le hd0 with hlt2 | heq2
          · exact hlt2
          · exact absurd (by rw [← hdd, ← heq2]; ring) hz
        rw [hn, if_pos hpos]
  · rw [if_neg hlt]
    constructor
    · constructor
      · rintro ⟨np, hnp⟩
        exact Option.noConfusion hnp
      · intro hcon
        exact absurd (hiff.mpr hcon) hlt
    · intro n p hnp
      exact Option.noConfusion hnp

/-- A concrete circle of radius 2 at the origin for the C2 witness. -/
def c2circA : Entity :=
  ⟨⟨0, 0⟩, ⟨0, 0⟩, false, 5, 2/5, Shape.circle 2, false, 0, true, false,
    50, 50, 100, false⟩

/-- A concrete circle of radius 2 at (3, 0) for the C2 witness. -/
def c2circB : Entity :=
  ⟨⟨3, 0⟩, ⟨0, 0⟩, false, 5, 2/5, Shape.circle 2, false, 0, true, false,
    50, 50, 100, false⟩

/-- A square-root table correct at the squared distance 9 of the two C2
witness circles. -/
def c2sqrt : ℚ → ℚ := fun q => if q = 9 then 3 else 0

/-- Witness for c2_circle_circle at the concrete circles: distance 3 is
below the radius sum 4, so a contact exists with penetration 1. -/
theorem c2_circle_circle_witness :
    SqrtOK c2sqrt ((c2circB.position.sub c2circA.position).lenSq) ∧
    (((∃ np, checkCircleCircle c2sqrt c2circA c2circB = some np) ↔
        c2sqrt ((c2circB.position.sub c2circA.position).lenSq) < 2 + 2) ∧
      (∀ n p, checkCircleCircle c2sqrt c2circA c2circB = some (n, p) →
        p = (2 + 2) - c2sqrt ((c2circB.position.sub c2circA.position).lenSq) ∧
        (c2circB.position = c2circA.position → n = ⟨1, 0⟩) ∧
        (c2circB.position ≠ c2circA.position →
          n = (c2circB.position.sub c2circA.position).div
            (c2sqrt ((c2circB.position.sub c2circA.position).lenSq))))) := by
  have hsq : SqrtOK c2sqrt ((c2circB.position.sub c2circA.position).lenSq) := by
    norm_num [SqrtOK, c2sqrt, c2circA, c2circB, Vec2.sub, Vec2.lenSq, Vec2.dot]
  exact ⟨hsq, c2_circle_circle c2sqrt c2circA c2circB 2 2 rfl rfl
    (by norm_num) (by norm_num) hsq⟩

/-- A circle of radius 5 centered exactly on the box center, for the C9
counterexample. -/
def c9circ : Entity :=
  ⟨⟨0, 0⟩, ⟨0, 0⟩, false, 5, 2/5, Shape.circle 5, false, 0, true, false,
    50, 50, 100, false⟩

/-- A 4x4 box at the origin, for the C9 counterexample. -/
def c9box : Entity :=
  ⟨⟨0, 0⟩, ⟨0, 0⟩, false, 8, 3/10, Shape.aabb 4 4, false, 0, true, false,
    100, 100, 200, false⟩

/-- Counterexample to claim C9 as stated: with the circle center exactly
at the box center, the circle-inside-box fallback normalizes the zero
vector and the returned contact normal is (0, 0), of length 0, not of
unit length.  The constant-zero square root used here is exact at both
squared distances this call computes (both are 0). -/
theorem c9_zero_normal_counterexample :
    (∀ q ∈ sqrtCallArgs c9circ c9box, SqrtOK (fun _ => 0) q) ∧
    checkCollision (fun _ => 0) c9circ c9box = some (⟨0, 0⟩, 5) ∧
    (⟨0, 0⟩ : Vec2).lenSq ≠ 1 := by
  refine ⟨?_, ?_, by norm_num [Vec2.lenSq, Vec2.dot]⟩
  · intro q hq
    simp only [sqrtCallArgs, c9circ, c9box, circleAABBDelta, shapeWidth,
      shapeHeight, Vec2.sub, Vec2.lenSq, Vec2.dot, List.mem_cons,
      List.mem_singleton] at hq
    rcases hq with h | h | h
    · rw [h]; constructor <;> norm_num
    · rw [h]; constructor <;> norm_num
    · simp at h
  · norm_num [checkCollision, c9circ, c9box, checkCircleAABB,
      circleAABBDelta, shapeRadius, shapeWidth, shapeHeight, Vec2.sub,
      Vec2.lenSq, Vec2.dot, Vec2.normalize, Vec2.len, min_def, max_def]

/-- Contact invariant of checkCircleCircle: nonnegative penetration and a
unit normal, under nonnegative radii and a correct square root at the
squared center distance. -/
theorem checkCircleCircle_invariant (f : ℚ → ℚ) (a b : Entity)
    (ra rb : ℚ) (hA : a.collisionShape = Shape.circle ra)
    (hB : b.collisionShape = Shape.circle rb)
    (hra : 0 ≤ ra) (hrb : 0 ≤ rb)
    (hf : SqrtOK f ((b.position.sub a.position).lenSq))
    (n : Vec2) (p : ℚ) (hc : checkCircleCircle f a b = some (n, p)) :
    0 ≤ p ∧ n.lenSq = 1 := by
  obtain ⟨hd0, hdd⟩ := hf
  unfold checkCircleCircle at hc
  rw [hA, hB] at hc
  dsimp only [shapeRadius] at hc
  set dSq := (b.position.sub a.position).lenSq with hdSq
  set d := f dSq with hd
  by_cases hlt : dSq < (ra + rb) * (ra + rb)
  · rw [if_pos hlt] at hc
    rw [Option.some.injEq, Prod.mk.injEq] at hc
    obtain ⟨hn, hp⟩ := hc
    constructor
    · rw [← hp]
      nlinarith
    · rw [← hn]
      by_cases hdpos : 0 < d
      · rw [if_pos hdpos]
        have hne : dSq ≠ 0 := by nlinarith
        rw [Vec2.lenSq_div _ _ (ne_of_gt hdpos), ← hdSq, hdd]
        exact div_self hne
      · rw [if_neg hdpos]
        norm_num [Vec2.lenSq, Vec2.dot]
  · rw [if_neg hlt] at hc
    exact Option.noConfusion hc

/-- Contact invariant of checkAABBAABB: positive penetration and a unit
normal. -/
theorem checkAABBAABB_invariant (a b : Entity) (n : Vec2) (p : ℚ)
    (hc : checkAABBAABB a b = some (n, p)) : 0 ≤ p ∧ n.lenSq = 1 := by
  unfold checkAABBAABB at hc
  dsimp only at hc
  by_cases h1 : 0 < shapeWidth a.collisionShape / 2 +
        shapeWidth b.collisionShape / 2 - |(b.position.sub a.position).x| ∧
      0 < shapeHeight a.collisionShape / 2 +
        shapeHeight b.collisionShape / 2 - |(b.position.sub a.position).y|
  · rw [if_pos h1] at hc
    obtain ⟨hx, hy⟩ := h1
    by_cases h2 : shapeWidth a.collisionShape / 2 +
          shapeWidth b.collisionShape / 2 - |(b.position.sub a.position).x| <
        shapeHeight a.collisionShape / 2 +
          shapeHeight b.collisionShape / 2 - |(b.position.sub a.position).y|
    · rw [if_pos h2, Option.some.injEq, Prod.mk.injEq] at hc
      obtain ⟨hn, hp⟩ := hc
      refine ⟨by linarith [hp], ?_⟩
      rw [← hn]
      split_ifs <;> norm_num [Vec2.lenSq, Vec2.dot]
    · rw [if_neg h2, Option.some.injEq, Prod.mk.injEq] at hc
      obtain ⟨hn, hp⟩ := hc
      refine ⟨by linarith [hp], ?_⟩
      rw [← hn]
      split_ifs <;> norm_num [Vec2.lenSq, Vec2.dot]
  · rw [if_neg h1] at hc
    exact Option.noConfusion hc

/-- Contact invariant of checkCircleAABB: nonnegative penetration, and a
unit normal except when the circle center coincides with the box center,
where the fallback yields the zero normal. -/
theorem checkCircleAABB_invariant (f : ℚ → ℚ) (c bb : Entity) (r : ℚ)
    (hC : c.collisionShape = Shape.circle r) (hr : 0 ≤ r)
    (hf1 : SqrtOK f (circleAABBDelta c bb).lenSq)
    (hf2 : SqrtOK f ((c.position.sub bb.position).lenSq))
    (n : Vec2) (p : ℚ) (hc : checkCircleAABB f c bb = some (n, p)) :
    0 ≤ p ∧ (n.lenSq = 1 ∨ (n = Vec2.zero ∧ c.position = bb.position)) := by
  obtain ⟨hd0, hdd⟩ := hf1
  obtain ⟨hl0, hll⟩ := hf2
  unfold checkCircleAABB at hc
  rw [hC] at hc
  dsimp only [shapeRadius] at hc
  set dSq := (circleAABBDelta c bb).lenSq with hdSq
  set d := f dSq with hd
  by_cases hlt : dSq < r * r
  · rw [if_pos hlt] at hc
    rw [Option.some.injEq, Prod.mk.injEq] at hc
    obtain ⟨hn, hp⟩ := hc
    constructor
    · rw [← hp]
      nlinarith
    · rw [← hn]
      by_cases hdpos : 0 < d
      · left
        rw [if_pos hdpos]
        have hne : dSq ≠ 0 := by nlinarith
        rw [Vec2.lenSq_div _ _ (ne_of_gt hdpos), ← hdSq, hdd]
        exact div_self hne
      · rw [if_neg hdpos]
        unfold Vec2.normalize Vec2.len
        dsimp only
        set l := f ((c.position.sub bb.position).lenSq) with hl
        by_cases hlpos : 0 < l
        · left
          have hvne : (c.position.sub bb.position).lenSq ≠ 0 := by nlinarith
          rw [if_pos hlpos, Vec2.lenSq_div _ _ (ne_of_gt hlpos), hll]
          exact div_self hvne
        · right
          have hlz : l = 0 := le_antisymm (not_lt.mp hlpos) hl0
          have hvz : (c.position.sub bb.position).lenSq = 0 := by
            rw [← hll, hlz]
            ring
          have hsub := (Vec2.lenSq_eq_zero_iff _).mp hvz
          rw [if_neg hlpos]
          exact ⟨rfl, (Vec2.sub_eq_zero_iff _ _).mp hsub⟩
  · rw [if_neg hlt] at hc
    exact Option.noConfusion hc

/-- Claim C9 (amended: the coincident-centers circle-box fallback returns
the zero normal, not a unit one): every contact returned by collision
detection has penetration depth at least 0, and its normal has unit
length except in the circle-box (or box-circle) case with the circle
center exactly at the box center, where the normal is the zero vector.
The square root f is assumed correct at the squared quantities this
detection call computes. -/
theorem c9_contact_invariants (f : ℚ → ℚ) (a b : Entity) (n : Vec2) (p : ℚ)
    (hs : ∀ q ∈ sqrtCallArgs a b, SqrtOK f q)
    (hra : ∀ r, a.collisionShape = Shape.circle r → 0 ≤ r)
    (hrb : ∀ r, b.collisionShape = Shape.circle r → 0 ≤ r)
    (hc : checkCollision f a b = some (n, p)) :
    0 ≤ p ∧ (n.lenSq = 1 ∨ (n = Vec2.zero ∧ a.position = b.position)) := by
  unfold checkCollision at hc
  cases hA : a.collisionShape with
  | circle ra =>
    cases hB : b.collisionShape with
    | circle rb =>
      rw [hA, hB] at hc
      have hf : SqrtOK f ((b.position.sub a.position).lenSq) := by
        apply hs
        unfold sqrtCallArgs
        rw [hA, hB]
        simp
      have := checkCircleCircle_invariant f a b ra rb hA hB
        (hra ra hA) (hrb rb hB) hf n p hc
      exact ⟨this.1, Or.inl this.2⟩
    | aabb wb kb =>
      rw [hA, hB] at hc
      have hf1 : SqrtOK f (circleAABBDelta a b).lenSq := by
        apply hs
        unfold sqrtCallArgs
        rw [hA, hB]
        simp
      have hf2 : SqrtOK f ((a.position.sub b.position).lenSq) := by
        apply hs
        unfold sqrtCallArgs
        rw [hA, hB]
        simp
      have := checkCircleAABB_invariant f a b ra hA (hra ra hA)
        hf1 hf2 n p hc
      exact ⟨this.1, this.2⟩
    | noShape =>
      rw [hA, hB] at hc
      exact Option.noConfusion hc
  | aabb wa ka =>
    cases hB : b.collisionShape with
    | circle rb =>
      rw [hA, hB] at hc
      rw [Option.map_eq_some'] at hc
      obtain ⟨np, hnp, heq⟩ := hc
      rw [Prod.mk.injEq] at heq
      obtain ⟨hn, hp⟩ := heq
      have hf1 : SqrtOK f (circleAABBDelta b a).lenSq := by
        apply hs
        unfold sqrtCallArgs
        rw [hA, hB]
        simp
      have hf2 : SqrtOK f ((b.position.sub a.position).lenSq) := by
        apply hs
        unfold sqrtCallArgs
        rw [hA, hB]
        simp
      have hinv := checkCircleAABB_invariant f b a rb hB (hrb rb hB)
        hf1 hf2 np.1 np.2 (by rw [← hnp])
      refine ⟨hp ▸ hinv.1, ?_⟩
      rcases hinv.2 with hunit | ⟨hzero, hpos⟩
      · left
        rw [← hn, Vec2.lenSq_mul, hunit]
        ring
      · right
        constructor
        · rw [← hn, hzero]
          norm_num [Vec2.zero, Vec2.mul]
        · exact hpos.symm
    | aabb wb kb =>
      rw [hA, hB] at hc
      have := checkAABBAABB_invariant a b n p hc
      exact ⟨this.1, Or.inl this.2⟩
    | noShape =>
      rw [hA, hB] at hc
      exact Option.noConfusion hc
  | noShape =>
    cases hB : b.collisionShape <;> rw [hA, hB] at hc <;>
      exact Option.noConfusion hc

/-- A circle of radius 2 at (13, 0) for the C9 witness. -/
def c9wcirc : Entity :=
  ⟨⟨13, 0⟩, ⟨0, 0⟩, false, 5, 2/5, Shape.circle 2, false, 0, true, false,
    50, 50, 100, false⟩

/-- A 20x6 box at the origin for the C9 witness: the closest point to the
circle center is (10, 0), at distance 3, inside the radius...  distance 3
is not below radius 2, so pick a larger radius: radius 4 below. -/
def c9wbox : Entity :=
  ⟨⟨0, 0⟩, ⟨0, 0⟩, false, 8, 3/10, Shape.aabb 20 6, false, 0, true, false,
    100, 100, 200, false⟩

/-- A square-root table correct at the squared quantities of the C9
witness call (delta squared 9 and center distance squared 169). -/
def c9sqrt : ℚ → ℚ := fun q => if q = 9 then 3 else if q = 169 then 13 else 0

/-- Witness for c9_contact_invariants at a concrete circle-box pair with
radius 4 (penetration 1, normal (1, 0)). -/
theorem c9_contact_invariants_witness :
    (∀ q ∈ sqrtCallArgs
        (⟨⟨13, 0⟩, ⟨0, 0⟩, false, 5, 2/5, Shape.circle 4, false, 0, true,
          false, 50, 50, 100, false⟩ : Entity) c9wbox, SqrtOK c9sqrt q) ∧
    (0 ≤ (1 : ℚ) ∧ ((⟨1, 0⟩ : Vec2).lenSq = 1 ∨
      ((⟨1, 0⟩ : Vec2) = Vec2.zero ∧
        (⟨⟨13, 0⟩, ⟨0, 0⟩, false, 5, 2/5, Shape.circle 4, false, 0, true,
          false, 50, 50, 100, false⟩ : Entity).position = c9wbox.position))) := by
  have hs : ∀ q ∈ sqrtCallArgs
      (⟨⟨13, 0⟩, ⟨0, 0⟩, false, 5, 2/5, Shape.circle 4, false, 0, true,
        false, 50, 50, 100, false⟩ : Entity) c9wbox, SqrtOK c9sqrt q := by
    intro q hq
    simp only [sqrtCallArgs, c9wbox, circleAABBDelta, shapeWidth,
      shapeHeight, Vec2.sub, Vec2.lenSq, Vec2.dot, List.mem_cons,
      List.mem_singleton, min_def, max_def] at hq
    norm_num at hq
    rcases hq with h | h <;> rw [h] <;> constructor <;> norm_num [c9sqrt]
  refine ⟨hs, ?_⟩
  exact c9_contact_invariants c9sqrt _ c9wbox ⟨1, 0⟩ 1 hs
    (by intro r hr; injection hr with hr; rw [← hr]; norm_num)
    (by intro r hr; simp [c9wbox] at hr)
    (by norm_num [checkCollision, c9wbox, checkCircleAABB, circleAABBDelta,
      shapeRadius, shapeWidth, shapeHeight, Vec2.sub, Vec2.lenSq, Vec2.dot,
      Vec2.div, min_def, max_def, c9sqrt])

/-! Projection lemmas: wake and the collision hook never touch position,
velocity, the static flag, mass or restitution. -/

@[simp] theorem Entity.wake_position (e : Entity) :
    e.wake.position = e.position := rfl

@[simp] theorem Entity.wake_velocity (e : Entity) :
    e.wake.velocity = e.velocity := rfl

@[simp] theorem Entity.wake_isStatic (e : Entity) :
    e.wake.isStatic = e.isStatic := rfl

@[simp] theorem Entity.wake_mass (e : Entity) : e.wake.mass = e.mass := rfl

@[simp] theorem Entity.wake_restitution (e : Entity) :
    e.wake.restitution = e.restitution := rfl

@[simp] theorem Entity.takeDamage_position (e : Entity) (x : ℚ) :
    (e.takeDamage x).position = e.position := by
  unfold Entity.takeDamage
  dsimp only
  split_ifs <;> rfl

@[simp] theorem Entity.takeDamage_velocity (e : Entity) (x : ℚ) :
    (e.takeDamage x).velocity = e.velocity := by
  unfold Entity.takeDamage
  dsimp only
  split_ifs <;> rfl

@[simp] theorem Entity.takeDamage_isStatic (e : Entity) (x : ℚ) :
    (e.takeDamage x).isStatic = e.isStatic := by
  unfold Entity.takeDamage
  dsimp only
  split_ifs <;> rfl

@[simp] theorem Entity.onCollision_position (e : Entity) (x : ℚ) :
    (e.onCollision x).position = e.position := by
  unfold Entity.onCollision
  dsimp only
  split_ifs <;> simp

@[simp] theorem Entity.onCollision_velocity (e : Entity) (x : ℚ) :
    (e.onCollision x).velocity = e.velocity := by
  unfold Entity.onCollision
  dsimp only
  split_ifs <;> simp

@[simp] theorem Entity.onCollision_isStatic (e : Entity) (x : ℚ) :
    (e.onCollision x).isStatic = e.isStatic := by
  unfold Entity.onCollision
  dsimp only
  split_ifs <;> simp

/-! The conditional wake at the top of the contact loop also preserves
the kinematic fields. -/

@[simp] theorem wakeIf_position (e : Entity) :
    (if e.isSleeping then e.wake else e).position = e.position := by
  split <;> simp

@[simp] theorem wakeIf_velocity (e : Entity) :
    (if e.isSleeping then e.wake else e).velocity = e.velocity := by
  split <;> simp

@[simp] theorem wakeIf_isStatic (e : Entity) :
    (if e.isSleeping then e.wake else e).isStatic = e.isStatic := by
  split <;> simp

@[simp] theorem wakeIf_mass (e : Entity) :
    (if e.isSleeping then e.wake else e).mass = e.mass := by
  split <;> simp

@[simp] theorem wakeIf_restitution (e : Entity) :
    (if e.isSleeping then e.wake else e).restitution = e.restitution := by
  split <;> simp

/-- The velocities produced by one contact resolution between two awake
dynamic bodies that are not separating: each body receives the impulse
j * normal scaled by its inverse mass, subtracted from the first body and
added to the second, with j = -(1+e) * velAlongNormal / totalInvMass and
e the minimum restitution. -/
theorem resolvePair_velocities (f : ℚ → ℚ) (c : Contact) (a b : Entity)
    (hsa : a.isStatic = false) (hsb : b.isStatic = false)
    (hma : 0 < a.mass) (hmb : 0 < b.mass)
    (hvan : ¬ 0 < (b.velocity.sub a.velocity).dot c.normal) :
    (resolvePair f c a b).1.velocity =
      a.velocity.sub ((c.normal.mul
        ((-(1 + min a.restitution b.restitution) *
          ((b.velocity.sub a.velocity).dot c.normal)) /
          (1 / a.mass + 1 / b.mass))).mul (1 / a.mass)) ∧
    (resolvePair f c a b).2.velocity =
      b.velocity.add ((c.normal.mul
        ((-(1 + min a.restitution b.restitution) *
          ((b.velocity.sub a.velocity).dot c.normal)) /
          (1 / a.mass + 1 / b.mass))).mul (1 / b.mass)) := by
  have htot : 1 / a.mass + 1 / b.mass ≠ 0 := by positivity
  unfold resolvePair
  simp only [wakeIf_mass, wakeIf_isStatic, wakeIf_velocity,
    wakeIf_restitution, hsa, hsb, Bool.false_eq_true, if_false,
    if_pos hma, if_pos hmb, if_neg htot, if_neg hvan,
    Entity.onCollision_velocity]
  constructor <;> trivial

/-- Claim C5: resolving a single contact between two dynamic bodies of
equal positive mass, both with restitution 1, moving along the unit
contact normal and approaching, exactly exchanges the two velocities (with
e = min of the restitutions and j = -(1+e) * velAlongNormal /
totalInvMass, as in the source). -/
theorem c5_equal_mass_head_on_exchange (f : ℚ → ℚ) (nv : Vec2) (pen : ℚ)
    (a b : Entity) (m q1 q2 : ℚ)
    (hsa : a.isStatic = false) (hsb : b.isStatic = false)
    (hma : a.mass = m) (hmb : b.mass = m) (hm : 0 < m)
    (hea : a.restitution = 1) (heb : b.restitution = 1)
    (hva : a.velocity = nv.mul q1) (hvb : b.velocity = nv.mul q2)
    (hn : nv.lenSq = 1) (happ : q2 < q1) :
    ∃ a1 b1, resolveCollisions f [⟨0, 1, nv, pen⟩] [a, b] = [a1, b1] ∧
      a1.velocity = b.velocity ∧ b1.velocity = a.velocity := by
  have hn' : nv.x * nv.x + nv.y * nv.y = 1 := hn
  have hvan : (b.velocity.sub a.velocity).dot nv = q2 - q1 := by
    rw [hva, hvb]
    unfold Vec2.mul Vec2.sub Vec2.dot
    linear_combination (q2 - q1) * hn'
  have hvanneg : ¬ 0 < (b.velocity.sub a.velocity).dot nv := by
    rw [hvan]
    linarith
  have hkey := resolvePair_velocities f ⟨0, 1, nv, pen⟩ a b hsa hsb
    (by rw [hma]; exact hm) (by rw [hmb]; exact hm) hvanneg
  have hm0 : m ≠ 0 := ne_of_gt hm
  refine ⟨(resolvePair f ⟨0, 1, nv, pen⟩ a b).1,
    (resolvePair f ⟨0, 1, nv, pen⟩ a b).2, rfl, ?_, ?_⟩
  · rw [hkey.1]
    dsimp only
    rw [hvan, hva, hvb, hea, heb, hma, hmb]
    simp only [min_self]
    unfold Vec2.mul Vec2.sub
    rw [Vec2.mk.injEq]
    constructor <;> (field_simp; ring)
  · rw [hkey.2]
    dsimp only
    rw [hvan, hva, hvb, hea, heb, hma, hmb]
    simp only [min_self]
    unfold Vec2.mul Vec2.add
    rw [Vec2.mk.injEq]
    constructor <;> (field_simp; ring)

/-- First body for the C5 witness: unit mass, restitution 1, moving right
along the normal (1, 0). -/
def c5a : Entity :=
  ⟨⟨0, 0⟩, ⟨1, 0⟩, false, 1, 1, Shape.circle 1, false, 0, true, false,
    100, 100, 500, false⟩

/-- Second body for the C5 witness: unit mass, restitution 1, moving left
toward the first body. -/
def c5b : Entity :=
  ⟨⟨2, 0⟩, ⟨-1, 0⟩, false, 1, 1, Shape.circle 1, false, 0, true, false,
    100, 100, 500, false⟩

/-- Witness for c5_equal_mass_head_on_exchange: the two concrete unit-mass
bodies approaching head to head along (1, 0) swap their velocities. -/
theorem c5_equal_mass_head_on_exchange_witness :
    ((⟨1, 0⟩ : Vec2).lenSq = 1 ∧ (-1 : ℚ) < 1 ∧ (0 : ℚ) < 1) ∧
    (∃ a1 b1, resolveCollisions (fun _ => 0) [⟨0, 1, ⟨1, 0⟩, 0⟩]
        [c5a, c5b] = [a1, b1] ∧
      a1.velocity = c5b.velocity ∧ b1.velocity = c5a.velocity) :=
  ⟨⟨by norm_num [Vec2.lenSq, Vec2.dot], by norm_num, by norm_num⟩,
    c5_equal_mass_head_on_exchange (fun _ => 0) ⟨1, 0⟩ 0 c5a c5b 1 1 (-1)
      rfl rfl rfl rfl (by norm_num) rfl rfl
      (by norm_num [c5a, Vec2.mul]) (by norm_num [c5b, Vec2.mul])
      (by norm_num [Vec2.lenSq, Vec2.dot]) (by norm_num)⟩

/-- A list transformer keeps every static entity in place: the entry at
any index holding a static entity still holds a static entity with the
same position and velocity afterwards. -/
def StaticKeep (g : List Entity → List Entity) : Prop :=
  ∀ (es : List Entity) (k : Nat) (e : Entity),
    es[k]? = some e → e.isStatic = true →
    ∃ e2, (g es)[k]? = some e2 ∧ e2.isStatic = true ∧
      e2.position = e.position ∧ e2.velocity = e.velocity

/-- Composition preserves StaticKeep. -/
theorem StaticKeep.comp {g h : List Entity → List Entity}
    (hg : StaticKeep g) (hh : StaticKeep h) :
    StaticKeep (fun es => h (g es)) := by
  unfold StaticKeep at hg hh ⊢
  intro es k e hk hs
  obtain ⟨e1, h1, hs1, hp1, hv1⟩ := hg es k e hk hs
  obtain ⟨e2, h2, hs2, hp2, hv2⟩ := hh (g es) k e1 h1 hs1
  exact ⟨e2, h2, hs2, hp2.trans hp1, hv2.trans hv1⟩

/-- Iteration preserves StaticKeep. -/
theorem StaticKeep.iterate {g : List Entity → List Entity}
    (hg : StaticKeep g) : ∀ n, StaticKeep (g^[n]) := by
  intro n
  unfold StaticKeep at hg
  induction n with
  | zero =>
    unfold StaticKeep
    intro es k e hk hs
    exact ⟨e, by simpa using hk, hs, rfl, rfl⟩
  | succ n ih =>
    unfold StaticKeep at ih ⊢
    intro es k e hk hs
    obtain ⟨e1, h1, hs1, hp1, hv1⟩ := ih es k e hk hs
    obtain ⟨e2, h2, hs2, hp2, hv2⟩ := hg (g^[n] es) k e1 h1 hs1
    rw [Function.iterate_succ_apply']
    exact ⟨e2, h2, hs2, hp2.trans hp1, hv2.trans hv1⟩

/-- A map whose function fixes static entities keeps them. -/
theorem StaticKeep.map {g : Entity → Entity}
    (hg : ∀ e, e.isStatic = true → g e = e) :
    StaticKeep (fun es => es.map g) := by
  unfold StaticKeep
  intro es k e hk hs
  refine ⟨e, ?_, hs, rfl, rfl⟩
  rw [List.getElem?_map, hk, Option.map_some', hg e hs]

/-- applyForcesOne fixes static entities. -/
theorem applyForcesOne_static (dt : ℚ) (e : Entity)
    (h : e.isStatic = true) : applyForcesOne dt e = e := by
  unfold applyForcesOne
  rw [h]
  simp

/-- integrateOne fixes static entities. -/
theorem integrateOne_static (dt : ℚ) (e : Entity)
    (h : e.isStatic = true) : integrateOne dt e = e := by
  unfold integrateOne
  rw [h]
  simp

/-- updateSleepOne fixes static entities. -/
theorem updateSleepOne_static (dt : ℚ) (e : Entity)
    (h : e.isStatic = true) : updateSleepOne dt e = e := by
  unfold updateSleepOne
  rw [h]
  simp

set_option maxHeartbeats 1600000 in
/-- The first component of a resolved pair coming from a static entity
keeps its static flag, position and velocity. -/
theorem resolvePair_static_fst (f : ℚ → ℚ) (c : Contact) (a b : Entity)
    (h : a.isStatic = true) :
    (resolvePair f c a b).1.isStatic = true ∧
    (resolvePair f c a b).1.position = a.position ∧
    (resolvePair f c a b).1.velocity = a.velocity := by
  unfold resolvePair
  simp only [wakeIf_isStatic, h, eq_self_iff_true, if_true]
  split_ifs <;> simp [h]

set_option maxHeartbeats 1600000 in
/-- The second component of a resolved pair coming from a static entity
keeps its static flag, position and velocity. -/
theorem resolvePair_static_snd (f : ℚ → ℚ) (c : Contact) (a b : Entity)
    (h : b.isStatic = true) :
    (resolvePair f c a b).2.isStatic = true ∧
    (resolvePair f c a b).2.position = b.position ∧
    (resolvePair f c a b).2.velocity = b.velocity := by
  unfold resolvePair
  simp only [wakeIf_isStatic, h, eq_self_iff_true, if_true]
  split_ifs <;> simp [h]

/-- One iteration of the contact loop keeps static entities in place. -/
theorem resolveContact_staticKeep (f : ℚ → ℚ) (c : Contact) :
    StaticKeep (resolveContact f c) := by
  unfold StaticKeep
  intro es k e hk hs
  cases hA : es[c.idxA]? with
  | none =>
    have hres : resolveContact f c es = es := by
      unfold resolveContact
      rw [hA]
    rw [hres]
    exact ⟨e, hk, hs, rfl, rfl⟩
  | some a0 =>
    cases hB : es[c.idxB]? with
    | none =>
      have hres : resolveContact f c es = es := by
        unfold resolveContact
        rw [hA, hB]
      rw [hres]
      exact ⟨e, hk, hs, rfl, rfl⟩
    | some b0 =>
      have hres : resolveContact f c es =
          (es.set c.idxA (resolvePair f c a0 b0).1).set c.idxB
            (resolvePair f c a0 b0).2 := by
        unfold resolveContact
        rw [hA, hB]
      rw [hres]
      have hlenB : c.idxB < es.length := by
        by_contra hcon
        rw [List.getElem?_eq_none (le_of_not_lt hcon)] at hB
        exact Option.noConfusion hB
      have hlenA : c.idxA < es.length := by
        by_contra hcon
        rw [List.getElem?_eq_none (le_of_not_lt hcon)] at hA
        exact Option.noConfusion hA
      by_cases hkB : k = c.idxB
      · subst hkB
        have he : b0 = e := by
          rw [hk] at hB
          injection hB with hval
          exact hval.symm
        subst he
        refine ⟨(resolvePair f c a0 b0).2, ?_, ?_⟩
        · apply List.getElem?_set_eq_of_lt
          simpa using hlenB
        · exact resolvePair_static_snd f c a0 b0 hs
      · by_cases hkA : k = c.idxA
        · subst hkA
          have he : a0 = e := by
            rw [hk] at hA
            injection hA with hval
            exact hval.symm
          subst he
          refine ⟨(resolvePair f c a0 b0).1, ?_, ?_⟩
          · rw [List.getElem?_set_ne (fun hcon => hkB hcon.symm),
              List.getElem?_set_eq_of_lt _ hlenA]
          · exact resolvePair_static_fst f c a0 b0 hs
        · refine ⟨e, ?_, hs, rfl, rfl⟩
          rw [List.getElem?_set_ne (fun hcon => hkB hcon.symm),
            List.getElem?_set_ne (fun hcon => hkA hcon.symm)]
          exact hk

/-- The whole contact loop keeps static entities in place. -/
theorem resolveCollisions_staticKeep (f : ℚ → ℚ) (cs : List Contact) :
    StaticKeep (resolveCollisions f cs) := by
  unfold StaticKeep
  induction cs with
  | nil =>
    intro es k e hk hs
    exact ⟨e, hk, hs, rfl, rfl⟩
  | cons c cs ih =>
    intro es k e hk hs
    obtain ⟨e1, h1, hs1, hp1, hv1⟩ :=
      resolveContact_staticKeep f c es k e hk hs
    obtain ⟨e2, h2, hs2, hp2, hv2⟩ := ih (resolveContact f c es) k e1 h1 hs1
    exact ⟨e2, h2, hs2, hp2.trans hp1, hv2.trans hv1⟩

/-- One detection plus resolution pass keeps static entities in place. -/
theorem physicsSubStep_staticKeep (f : ℚ → ℚ) :
    StaticKeep (physicsSubStep f) := by
  unfold StaticKeep
  intro es k e hk hs
  exact resolveCollisions_staticKeep f (detectCollisions f es) es k e hk hs

/-- One full tick of the world keeps static entities in place. -/
theorem worldUpdate_staticKeep (f : ℚ → ℚ) (dt : ℚ) :
    StaticKeep (worldUpdate f dt) := by
  have h1 : StaticKeep (applyForces dt) :=
    StaticKeep.map (applyForcesOne_static dt)
  have h2 : StaticKeep (integrate dt) :=
    StaticKeep.map (integrateOne_static dt)
  have h4 : StaticKeep (updateSleepState dt) :=
    StaticKeep.map (updateSleepOne_static dt)
  unfold StaticKeep
  intro es k e hk hs
  obtain ⟨e1, g1, gs1, gp1, gv1⟩ := h1 es k e hk hs
  obtain ⟨e2, g2, gs2, gp2, gv2⟩ := h2 (applyForces dt es) k e1 g1 gs1
  obtain ⟨e3, g3, gs3, gp3, gv3⟩ :=
    StaticKeep.iterate (physicsSubStep_staticKeep f) 8
      (integrate dt (applyForces dt es)) k e2 g2 gs2
  obtain ⟨e4, g4, gs4, gp4, gv4⟩ :=
    h4 ((physicsSubStep f)^[8] (integrate dt (applyForces dt es))) k e3 g3 gs3
  exact ⟨e4, g4, gs4,
    (gp4.trans gp3).trans (gp2.trans gp1),
    (gv4.trans gv3).trans (gv2.trans gv1)⟩

/-- Claim C4: a static body is untouched by any number of full stepper
ticks - force application, integration, all eight collision resolution
sub-steps and the sleep update - whatever collisions involve it: its
position and velocity after n ticks equal the initial ones. -/
theorem c4_static_unchanged (f : ℚ → ℚ) (dt : ℚ) (n : Nat)
    (es : List Entity) (k : Nat) (e : Entity)
    (hk : es[k]? = some e) (hs : e.isStatic = true) :
    ∃ e2, ((worldUpdate f dt)^[n] es)[k]? = some e2 ∧
      e2.position = e.position ∧ e2.velocity = e.velocity := by
  obtain ⟨e2, h2, _, hp, hv⟩ :=
    StaticKeep.iterate (worldUpdate_staticKeep f dt) n es k e hk hs
  exact ⟨e2, h2, hp, hv⟩

/-- A concrete static ground block for the C4 witness. -/
def c4stat : Entity :=
  ⟨⟨640, 745⟩, ⟨0, 0⟩, true, 0, 1/5, Shape.aabb 1280 50, false, 0, false,
    false, 300, 300, 600, false⟩

/-- Witness for c4_static_unchanged: a lone static block after one full
tick. -/
theorem c4_static_unchanged_witness :
    (([c4stat] : List Entity)[0]? = some c4stat ∧ c4stat.isStatic = true) ∧
    (∃ e2, ((worldUpdate (fun _ => 0) TIME_STEP)^[1] [c4stat])[0]? = some e2 ∧
      e2.position = c4stat.position ∧ e2.velocity = c4stat.velocity) :=
  ⟨⟨rfl, rfl⟩,
    c4_static_unchanged (fun _ => 0) TIME_STEP 1 [c4stat] 0 c4stat rfl rfl⟩

/-- A world holding a single entity produces no contacts: the inner loop
ranges over indices strictly above 0 in a one-element list. -/
theorem detectCollisions_singleton (f : ℚ → ℚ) (e : Entity) :
    detectCollisions f [e] = [] := by
  unfold detectCollisions detectInner
  simp

/-- A detection plus resolution pass on a one-entity world is the
identity. -/
theorem physicsSubStep_singleton (f : ℚ → ℚ) (e : Entity) :
    physicsSubStep f [e] = [e] := by
  unfold physicsSubStep
  rw [detectCollisions_singleton]
  rfl

/-- One world tick on a one-entity world is force application,
integration and sleep update of that entity (the eight collision
sub-steps are the identity). -/
theorem worldUpdate_singleton (f : ℚ → ℚ) (dt : ℚ) (e : Entity) :
    worldUpdate f dt [e] =
      [updateSleepOne dt (integrateOne dt (applyForcesOne dt e))] := by
  unfold worldUpdate applyForces integrate updateSleepState
  rw [List.map_singleton, List.map_singleton,
    Function.iterate_fixed (physicsSubStep_singleton f _) 8,
    List.map_singleton]

/-- One tick of force application, integration and sleep update on an
awake dynamic entity with positive mass that does not fall asleep during
the tick: the velocity gains gravity and damping and the position gains
velocity times the time step - exactly the trajectory predictor step. -/
theorem tick_nonsleeping (eK : Entity)
    (hKs : eK.isStatic = false) (hKsl : eK.isSleeping = false)
    (hKm : 0 < eK.mass)
    (hnot : (updateSleepOne TIME_STEP (integrateOne TIME_STEP
      (applyForcesOne TIME_STEP eK))).isSleeping = false) :
    ∃ e3, updateSleepOne TIME_STEP (integrateOne TIME_STEP
        (applyForcesOne TIME_STEP eK)) = e3 ∧
      e3.isStatic = false ∧ e3.mass = eK.mass ∧ e3.isSleeping = false ∧
      e3.position = eK.position.add
        (((eK.velocity.add ⟨0, GRAVITY * TIME_STEP⟩).mul FRICTION).mul
          TIME_STEP) ∧
      e3.velocity = (eK.velocity.add ⟨0, GRAVITY * TIME_STEP⟩).mul
        FRICTION := by
  have hcond : (eK.isStatic || eK.isSleeping) = false := by
    rw [hKs, hKsl]
    rfl
  have happ : applyForcesOne TIME_STEP eK =
      { eK with velocity :=
          (eK.velocity.add ⟨0, GRAVITY * TIME_STEP⟩).mul FRICTION } := by
    unfold applyForcesOne
    rw [hcond]
    simp only [Bool.false_eq_true, if_false]
    rw [if_pos hKm]
  have hint : integrateOne TIME_STEP (applyForcesOne TIME_STEP eK) =
      { eK with
        position := eK.position.add
          (((eK.velocity.add ⟨0, GRAVITY * TIME_STEP⟩).mul FRICTION).mul
            TIME_STEP),
        velocity :=
          (eK.velocity.add ⟨0, GRAVITY * TIME_STEP⟩).mul FRICTION } := by
    rw [happ]
    unfold integrateOne
    dsimp only
    rw [hcond]
    simp only [Bool.false_eq_true, if_false]
  rw [hint] at hnot ⊢
  unfold updateSleepOne at hnot ⊢
  dsimp only at hnot ⊢
  by_cases hcs : (eK.isStatic || !eK.canSleep) = true
  · rw [if_pos hcs] at hnot ⊢
    exact ⟨_, rfl, hKs, rfl, hKsl, rfl, rfl⟩
  · rw [if_neg hcs] at hnot ⊢
    by_cases hslp :
        ((eK.velocity.add ⟨0, GRAVITY * TIME_STEP⟩).mul FRICTION).lenSq <
          MIN_VELOCITY_FOR_SLEEP * MIN_VELOCITY_FOR_SLEEP
    · rw [if_pos hslp] at hnot ⊢
      by_cases htm : SLEEP_DELAY_FRAMES * TIME_STEP ≤
          eK.sleepTimer + TIME_STEP
      · rw [if_pos htm] at hnot
        exact absurd hnot (by simp)
      · rw [if_neg htm] at hnot ⊢
        exact ⟨_, rfl, hKs, rfl, hKsl, rfl, rfl⟩
    · rw [if_neg hslp] at hnot ⊢
      exact ⟨_, rfl, hKs, rfl, rfl, rfl, rfl⟩

/-- Claim C1: on a lone non-static, never-sleeping, positive-mass body the
live stepper and the trajectory predictor coincide: after k ticks the
stepper position (and velocity) equals the predictor state after k
internal steps, because each tick applies, in order, velocity +=
(0, GRAVITY*TIME_STEP), velocity *= FRICTION, position +=
velocity*TIME_STEP, with the constants shared by both. -/
theorem c1_trajectory_matches_stepper (f : ℚ → ℚ) (e : Entity) (k : Nat)
    (hstat : e.isStatic = false) (hmass : 0 < e.mass)
    (hsleep : ∀ i, i ≤ k → ∀ e2 ∈ (worldUpdate f TIME_STEP)^[i] [e],
      e2.isSleeping = false) :
    ∃ e2, ((worldUpdate f TIME_STEP)^[k] [e])[0]? = some e2 ∧
      e2.position = trajPoint k e.position e.velocity ∧
      e2.velocity = (trajStep^[k] (e.position, e.velocity)).2 := by
  have main : ∀ j, j ≤ k →
      ∃ e2, (worldUpdate f TIME_STEP)^[j] [e] = [e2] ∧
        e2.isStatic = false ∧ e2.mass = e.mass ∧ e2.isSleeping = false ∧
        e2.position = (trajStep^[j] (e.position, e.velocity)).1 ∧
        e2.velocity = (trajStep^[j] (e.position, e.velocity)).2 := by
    intro j
    induction j with
    | zero =>
      intro _
      refine ⟨e, rfl, hstat, rfl, ?_, rfl, rfl⟩
      exact hsleep 0 (Nat.zero_le k) e (List.mem_singleton_self e)
    | succ j ih =>
      intro hjk
      obtain ⟨eK, hK, hKs, hKm, hKsl, hKp, hKv⟩ := ih (Nat.le_of_succ_le hjk)
      have hstep : (worldUpdate f TIME_STEP)^[j+1] [e] =
          [updateSleepOne TIME_STEP (integrateOne TIME_STEP
            (applyForcesOne TIME_STEP eK))] := by
        rw [Function.iterate_succ_apply', hK, worldUpdate_singleton]
      have hnot : (updateSleepOne TIME_STEP (integrateOne TIME_STEP
          (applyForcesOne TIME_STEP eK))).isSleeping = false := by
        apply hsleep (j+1) hjk
        rw [hstep]
        exact List.mem_singleton_self _
      obtain ⟨e3, he3eq, he3s, he3m, he3sl, he3p, he3v⟩ :=
        tick_nonsleeping eK hKs hKsl (by rw [hKm]; exact hmass) hnot
      refine ⟨e3, by rw [hstep, he3eq], he3s, by rw [he3m, hKm], he3sl,
        ?_, ?_⟩
      · rw [he3p, hKp, hKv, Function.iterate_succ_apply']
        rfl
      · rw [he3v, hKv, Function.iterate_succ_apply']
        rfl
  obtain ⟨e2, heq, _, _, _, hp, hv⟩ := main k (le_refl k)
  refine ⟨e2, ?_, hp, hv⟩
  rw [heq]
  rfl

/-- A concrete fast-moving dynamic bird for the C1 witness (canSleep is
off, as for a bird still held before launch, so it trivially never
sleeps). -/
def c1bird : Entity :=
  ⟨⟨0, 0⟩, ⟨100, 0⟩, false, 5, 2/5, Shape.circle 20, false, 0, false, false,
    50, 50, 100, false⟩

/-- Witness for c1_trajectory_matches_stepper: the concrete bird stays
awake for two ticks and its stepper position matches the predictor. -/
theorem c1_trajectory_matches_stepper_witness :
    (c1bird.isStatic = false ∧ 0 < c1bird.mass ∧
      (∀ i, i ≤ 2 →
        ∀ e2 ∈ (worldUpdate (fun _ => 0) TIME_STEP)^[i] [c1bird],
          e2.isSleeping = false)) ∧
    (∃ e2, ((worldUpdate (fun _ => 0) TIME_STEP)^[2] [c1bird])[0]? =
        some e2 ∧
      e2.position = trajPoint 2 c1bird.position c1bird.velocity ∧
      e2.velocity = (trajStep^[2] (c1bird.position, c1bird.velocity)).2) := by
  have hs : ∀ i, i ≤ 2 →
      ∀ e2 ∈ (worldUpdate (fun _ => 0) TIME_STEP)^[i] [c1bird],
        e2.isSleeping = false := by decide
  exact ⟨⟨rfl, by norm_num [c1bird], hs⟩,
    c1_trajectory_matches_stepper (fun _ => 0) c1bird 2 rfl
      (by norm_num [c1bird]) hs⟩

/-- A square-root table correct at 400, the squared band length that
updateAim computes in the C8 scenario. -/
def c8sqrt : ℚ → ℚ := fun q => if q = 400 then 20 else 0

/-- A fresh idle bird of radius BIRD_RADIUS for the C8 scenario. -/
def c8bird0 : Bird := ⟨⟨0, 0⟩, ⟨0, 0⟩, BirdState.idle, false, 0, 20⟩

/-- The slingshot at the level-1 base position (150, 570). -/
def c8slingshot : Slingshot := Slingshot.init 150 570

/-- The pointer position of the C8 scenario: exactly the held bird's
resting position, so pressing and releasing there gives the raw drag
vector (0, 0). -/
def c8pointer : Vec2 :=
  (c8slingshot.attachBird c8bird0).anchorFrontPos.add ⟨0, -BIRD_RADIUS⟩

/-- The slingshot state and flag after pressing the pointer exactly on
the held bird. -/
def c8aimed : Slingshot × Bool :=
  (c8slingshot.attachBird c8bird0).startAim c8pointer

/-- The slingshot state after an aim update with an unmoved pointer (raw
drag vector (0,0)). -/
def c8dragged : Slingshot := c8aimed.1.updateAim c8sqrt c8pointer

/-- The result of releasing the pointer with zero drag. -/
def c8final : Slingshot × Option Bird × Bool := c8dragged.endAim

/-- Claim C8 is contradicted by the code: after attachBird the bird rests
at anchorFront + (0, -BIRD_RADIUS), so releasing the pointer at the drag
start point (raw drag vector (0,0)) still leaves getLaunchVelocity =
(0, 20), whose squared length 400 is positive - endAim therefore launches:
it returns true and the bird transitions to the flying state with
velocity (0, 20) * LAUNCH_POWER * (1/FRICTION) = (0, 3000/7), pointing
straight down.  The aim state is cleared.  This theorem evaluates the
embedded slingshot code on that exact input. -/
theorem c8_zero_drag_still_launches :
    c8aimed.2 = true ∧
    c8dragged.getLaunchVelocity = ⟨0, 20⟩ ∧
    c8final.2.2 = true ∧
    c8final.2.1 = some ⟨⟨160, 555⟩, ⟨0, 3000/7⟩, BirdState.flying, false, 0, 20⟩ ∧
    c8final.1.aimingBird = none ∧ c8final.1.dragStartPos = none ∧
    c8final.1.dragCurrentPos = none := by
  norm_num [c8pointer, c8aimed, c8dragged, c8final, c8slingshot, c8bird0,
    c8sqrt, Slingshot.init, Slingshot.attachBird, Slingshot.anchorFrontPos,
    Slingshot.startAim, Slingshot.updateAim, Slingshot.getLaunchVelocity,
    Slingshot.endAim, Bird.launch, Vec2.add, Vec2.sub, Vec2.mul, Vec2.lenSq,
    Vec2.dot, Vec2.len, Vec2.normalize, Vec2.zero, BIRD_RADIUS,
    LAUNCH_POWER, FRICTION]

/-! Projection lemmas for the FNum embedding. -/

@[simp] theorem FEntity.fwake_position (e : FEntity) :
    e.wake.position = e.position := rfl

@[simp] theorem FEntity.fwake_velocity (e : FEntity) :
    e.wake.velocity = e.velocity := rfl

@[simp] theorem FEntity.fwake_isStatic (e : FEntity) :
    e.wake.isStatic = e.isStatic := rfl

@[simp] theorem FEntity.fwake_mass (e : FEntity) :
    e.wake.mass = e.mass := rfl

@[simp] theorem FEntity.ftakeDamage_position (e : FEntity) (x : FNum) :
    (e.takeDamage x).position = e.position := by
  unfold FEntity.takeDamage
  dsimp only
  split_ifs <;> rfl

@[simp] theorem FEntity.ftakeDamage_velocity (e : FEntity) (x : FNum) :
    (e.takeDamage x).velocity = e.velocity := by
  unfold FEntity.takeDamage
  dsimp only
  split_ifs <;> rfl

@[simp] theorem FEntity.fonCollision_position (e : FEntity) (x : FNum) :
    (e.onCollision x).position = e.position := by
  unfold FEntity.onCollision
  dsimp only
  split_ifs <;> simp

@[simp] theorem FEntity.fonCollision_velocity (e : FEntity) (x : FNum) :
    (e.onCollision x).velocity = e.velocity := by
  unfold FEntity.onCollision
  dsimp only
  split_ifs <;> simp

@[simp] theorem fwakeIf_position (e : FEntity) :
    (if e.isSleeping then e.wake else e).position = e.position := by
  split <;> simp

@[simp] theorem fwakeIf_velocity (e : FEntity) :
    (if e.isSleeping then e.wake else e).velocity = e.velocity := by
  split <;> simp

@[simp] theorem fwakeIf_isStatic (e : FEntity) :
    (if e.isSleeping then e.wake else e).isStatic = e.isStatic := by
  split <;> simp

/-- A JS number that fails the isNaN test holds a value. -/
theorem isSome_of_not_nan (x : FNum) (h : fIsNaN x = false) :
    x.isSome = true := by
  cases x <;> simp [fIsNaN] at h ⊢

set_option maxHeartbeats 4000000 in
/-- The first body of a contact keeps NaN-free position and velocity
through the resolution loop body: the isNaN guards of the source revert
any NaN produced by the positional correction or the impulse. -/
theorem fresolvePair_fst_finitePV (fs : FNum → FNum) (n : FVec2)
    (p : FNum) (a0 b0 : FEntity) (ha : a0.finitePV) :
    (fresolvePair fs n p a0 b0).1.finitePV := by
  obtain ⟨hap, hav⟩ := ha
  unfold fresolvePair
  dsimp only
  set a1 := if a0.isSleeping then a0.wake else a0 with ha1def
  set b1 := if b0.isSleeping then b0.wake else b0 with hb1def
  have ha1p : a1.position = a0.position := fwakeIf_position a0
  have ha1v : a1.velocity = a0.velocity := fwakeIf_velocity a0
  set invA := if fgt a1.mass (some 0) then fdiv (some 1) a1.mass else some 0
    with hinvA
  set invB := if fgt b1.mass (some 0) then fdiv (some 1) b1.mass else some 0
    with hinvB
  by_cases hz : fIsZero (fadd invA invB) = true
  · rw [if_pos hz]
    exact ⟨ha1p ▸ hap, ha1v ▸ hav⟩
  · rw [if_neg hz]
    set corr := n.fvmul (fmul (fdiv (fmax (fsub p (some (1/10))) (some 0))
      (forElse (fadd invA invB) (1/1000000000))) (some (4/5))) with hcorr
    set a2 := if a1.isStatic then a1
      else { a1 with position := a1.position.fvsub (corr.fvmul invA) }
      with ha2def
    set b2 := if b1.isStatic then b1
      else { b1 with position := b1.position.fvadd (corr.fvmul invB) }
      with hb2def
    set a3 := if fIsNaN a2.position.x || fIsNaN a2.position.y then
        { a2 with position := a1.position } else a2 with ha3def
    set b3 := if fIsNaN b2.position.x || fIsNaN b2.position.y then
        { b2 with position := b1.position } else b2 with hb3def
    have ha2v : a2.velocity = a1.velocity := by
      rw [ha2def]
      split_ifs <;> rfl
    have ha3p : a3.position.finite := by
      rw [ha3def]
      split_ifs with hg
      · rw [ha1p]
        exact hap
      · simp only [Bool.or_eq_true, not_or, Bool.not_eq_true] at hg
        exact ⟨isSome_of_not_nan _ hg.1, isSome_of_not_nan _ hg.2⟩
    have ha3v : a3.velocity = a0.velocity := by
      rw [ha3def]
      split_ifs
      · rw [show ({ a2 with position := a1.position } : FEntity).velocity
            = a2.velocity from rfl, ha2v, ha1v]
      · rw [ha2v, ha1v]
    by_cases hsep : fgt ((b3.velocity.fvsub a3.velocity).fvdot n)
        (some 0) = true
    · rw [if_pos hsep]
      exact ⟨ha3p, ha3v ▸ hav⟩
    · rw [if_neg hsep]
      set impulse := n.fvmul (fdiv (fmul (fneg (fadd (some 1)
        (fmin a3.restitution b3.restitution)))
        ((b3.velocity.fvsub a3.velocity).fvdot n))
        (forElse (fadd invA invB) (1/1000000000))) with himp
      set a4 := if a3.isStatic then a3
        else { a3 with velocity := a3.velocity.fvsub (impulse.fvmul invA) }
        with ha4def
      set a5 := if fIsNaN a4.velocity.x || fIsNaN a4.velocity.y then
          { a4 with velocity := a3.velocity } else a4 with ha5def
      have ha4p : a4.position = a3.position := by
        rw [ha4def]
        split_ifs <;> rfl
      have ha5p : a5.position = a3.position := by
        rw [ha5def]
        split_ifs
        · rw [show ({ a4 with velocity := a3.velocity } : FEntity).position
              = a4.position from rfl, ha4p]
        · rw [ha4p]
      have ha5v : a5.velocity.finite := by
        rw [ha5def]
        split_ifs with hg
        · rw [show ({ a4 with velocity := a3.velocity } : FEntity).velocity
              = a3.velocity from rfl, ha3v]
          exact hav
        · simp only [Bool.or_eq_true, not_or, Bool.not_eq_true] at hg
          exact ⟨isSome_of_not_nan _ hg.1, isSome_of_not_nan _ hg.2⟩
      refine ⟨?_, ?_⟩
      · rw [FEntity.fonCollision_position, ha5p]
        exact ha3p
      · rw [FEntity.fonCollision_velocity]
        exact ha5v

set_option maxHeartbeats 4000000 in
/-- The second body of a contact keeps NaN-free position and velocity
through the resolution loop body. -/
theorem fresolvePair_snd_finitePV (fs : FNum → FNum) (n : FVec2)
    (p : FNum) (a0 b0 : FEntity) (hb : b0.finitePV) :
    (fresolvePair fs n p a0 b0).2.finitePV := by
  obtain ⟨hbp, hbv⟩ := hb
  unfold fresolvePair
  dsimp only
  set a1 := if a0.isSleeping then a0.wake else a0 with ha1def
  set b1 := if b0.isSleeping then b0.wake else b0 with hb1def
  have hb1p : b1.position = b0.position := fwakeIf_position b0
  have hb1v : b1.velocity = b0.velocity := fwakeIf_velocity b0
  set invA := if fgt a1.mass (some 0) then fdiv (some 1) a1.mass else some 0
    with hinvA
  set invB := if fgt b1.mass (some 0) then fdiv (some 1) b1.mass else some 0
    with hinvB
  by_cases hz : fIsZero (fadd invA invB) = true
  · rw [if_pos hz]
    exact ⟨hb1p ▸ hbp, hb1v ▸ hbv⟩
  · rw [if_neg hz]
    set corr := n.fvmul (fmul (fdiv (fmax (fsub p (some (1/10))) (some 0))
      (forElse (fadd invA invB) (1/1000000000))) (some (4/5))) with hcorr
    set a2 := if a1.isStatic then a1
      else { a1 with position := a1.position.fvsub (corr.fvmul invA) }
      with ha2def
    set b2 := if b1.isStatic then b1
      else { b1 with position := b1.position.fvadd (corr.fvmul invB) }
      with hb2def
    set a3 := if fIsNaN a2.position.x || fIsNaN a2.position.y then
        { a2 with position := a1.position } else a2 with ha3def
    set b3 := if fIsNaN b2.position.x || fIsNaN b2.position.y then
        { b2 with position := b1.position } else b2 with hb3def
    have hb2v : b2.velocity = b1.velocity := by
      rw [hb2def]
      split_ifs <;> rfl
    have hb3p : b3.position.finite := by
      rw [hb3def]
      split_ifs with hg
      · rw [hb1p]
        exact hbp
      · simp only [Bool.or_eq_true, not_or, Bool.not_eq_true] at hg
        exact ⟨isSome_of_not_nan _ hg.1, isSome_of_not_nan _ hg.2⟩
    have hb3v : b3.velocity = b0.velocity := by
      rw [hb3def]
      split_ifs
      · rw [show ({ b2 with position := b1.position } : FEntity).velocity
            = b2.velocity from rfl, hb2v, hb1v]
      · rw [hb2v, hb1v]
    by_cases hsep : fgt ((b3.velocity.fvsub a3.velocity).fvdot n)
        (some 0) = true
    · rw [if_pos hsep]
      exact ⟨hb3p, hb3v ▸ hbv⟩
    · rw [if_neg hsep]
      set impulse := n.fvmul (fdiv (fmul (fneg (fadd (some 1)
        (fmin a3.restitution b3.restitution)))
        ((b3.velocity.fvsub a3.velocity).fvdot n))
        (forElse (fadd invA invB) (1/1000000000))) with himp
      set a4 := if a3.isStatic then a3
        else { a3 with velocity := a3.velocity.fvsub (impulse.fvmul invA) }
        with ha4def
      set a5 := if fIsNaN a4.velocity.x || fIsNaN a4.velocity.y then
          { a4 with velocity := a3.velocity } else a4 with ha5def
      set b4 := if b3.isStatic then b3
        else { b3 with velocity := b3.velocity.fvadd (impulse.fvmul invB) }
        with hb4def
      set b5 := if fIsNaN b4.velocity.x || fIsNaN b4.velocity.y then
          { b4 with velocity := b3.velocity } else b4 with hb5def
      have hb4p : b4.position = b3.position := by
        rw [hb4def]
        split_ifs <;> rfl
      have hb5p : b5.position = b3.position := by
        rw [hb5def]
        split_ifs
        · rw [show ({ b4 with velocity := b3.velocity } : FEntity).position
              = b4.position from rfl, hb4p]
        · rw [hb4p]
      have hb5v : b5.velocity.finite := by
        rw [hb5def]
        split_ifs with hg
        · rw [show ({ b4 with velocity := b3.velocity } : FEntity).velocity
              = b3.velocity from rfl, hb3v]
          exact hbv
        · simp only [Bool.or_eq_true, not_or, Bool.not_eq_true] at hg
          exact ⟨isSome_of_not_nan _ hg.1, isSome_of_not_nan _ hg.2⟩
      refine ⟨?_, ?_⟩
      · rw [FEntity.fonCollision_position, hb5p]
        exact hb3p
      · rw [FEntity.fonCollision_velocity]
        exact hb5v

/-- One contact of the FNum resolution loop keeps NaN-free position and
velocity at every index. -/
theorem fresolveContact_finitePV (fs : FNum → FNum) (i j : Nat)
    (n : FVec2) (p : FNum) (es : List FEntity) (k : Nat) (e : FEntity)
    (hk : es[k]? = some e) (hf : e.finitePV) :
    ∃ e2, (fresolveContact fs i j n p es)[k]? = some e2 ∧ e2.finitePV := by
  cases hA : es[i]? with
  | none =>
    have hres : fresolveContact fs i j n p es = es := by
      unfold fresolveContact
      rw [hA]
    rw [hres]
    exact ⟨e, hk, hf⟩
  | some a0 =>
    cases hB : es[j]? with
    | none =>
      have hres : fresolveContact fs i j n p es = es := by
        unfold fresolveContact
        rw [hA, hB]
      rw [hres]
      exact ⟨e, hk, hf⟩
    | some b0 =>
      have hres : fresolveContact fs i j n p es =
          (es.set i (fresolvePair fs n p a0 b0).1).set j
            (fresolvePair fs n p a0 b0).2 := by
        unfold fresolveContact
        rw [hA, hB]
      rw [hres]
      have hlenB : j < es.length := by
        by_contra hcon
        rw [List.getElem?_eq_none (le_of_not_lt hcon)] at hB
        exact Option.noConfusion hB
      have hlenA : i < es.length := by
        by_contra hcon
        rw [List.getElem?_eq_none (le_of_not_lt hcon)] at hA
        exact Option.noConfusion hA
      by_cases hkB : k = j
      · subst hkB
        have he : b0 = e := by
          rw [hk] at hB
          injection hB with hval
          exact hval.symm
        subst he
        refine ⟨(fresolvePair fs n p a0 b0).2, ?_, ?_⟩
        · apply List.getElem?_set_eq_of_lt
          simpa using hlenB
        · exact fresolvePair_snd_finitePV fs n p a0 b0 hf
      · by_cases hkA : k = i
        · subst hkA
          have he : a0 = e := by
            rw [hk] at hA
            injection hA with hval
            exact hval.symm
          subst he
          refine ⟨(fresolvePair fs n p a0 b0).1, ?_, ?_⟩
          · rw [List.getElem?_set_ne (fun hcon => hkB hcon.symm),
              List.getElem?_set_eq_of_lt _ hlenA]
          · exact fresolvePair_fst_finitePV fs n p a0 b0 hf
        · refine ⟨e, ?_, hf⟩
          rw [List.getElem?_set_ne (fun hcon => hkB hcon.symm),
            List.getElem?_set_ne (fun hcon => hkA hcon.symm)]
          exact hk

/-- A concrete entity whose velocity x-component is already NaN, for the
C7 counterexample. -/
def c7nan : FEntity :=
  ⟨⟨some 0, some 0⟩, ⟨none, some 0⟩, false, false, some 0, some 5, some 1,
    some 50, some 100, false⟩

/-- The entity c7nan after one integration step: the NaN in the velocity
has reached the position. -/
def c7nanAfter : FEntity := { c7nan with position := ⟨none, some 0⟩ }

/-- Counterexample to claim C7 as stated: integration propagates a NaN
into the position and does not revert it - the isNaN check that follows
integration in the source only logs a warning (the reset is commented
out).  Before the step the x-position is the finite 0; afterwards it is
NaN. -/
theorem c7_integration_keeps_nan :
    (fintegrate TIME_STEP [c7nan])[0]? = some c7nanAfter ∧
    c7nan.position.x = some 0 ∧ c7nanAfter.position.x.isSome = false := by
  refine ⟨?_, rfl, rfl⟩
  norm_num [fintegrate, c7nan, c7nanAfter, FVec2.fvadd, FVec2.fvmul,
    fadd, fmul, TIME_STEP]

/-- Claim C7 (amended: only the collision-resolution steps revert
non-finite results; integration does not): a NaN produced by the
positional correction or by the impulse application is caught by the
isNaN guards and the body reverts to its pre-step position or velocity,
so contact resolution keeps NaN-free kinematic state; integration, in
contrast, applies position += velocity*dt unconditionally, so a NaN
velocity component propagates into the position unreverted. -/
theorem c7_nan_handling :
    (∀ (dt : ℚ) (es : List FEntity) (i : Nat) (e : FEntity),
      es[i]? = some e → e.isStatic = false → e.isSleeping = false →
      (fintegrate dt es)[i]? = some { e with
        position := e.position.fvadd (e.velocity.fvmul (some dt)) }) ∧
    (∀ (fs : FNum → FNum) (i j : Nat) (n : FVec2) (p : FNum)
      (es : List FEntity) (k : Nat) (e : FEntity),
      es[k]? = some e → e.finitePV →
      ∃ e2, (fresolveContact fs i j n p es)[k]? = some e2 ∧
        e2.finitePV) := by
  constructor
  · intro dt es i e hk hs hsl
    have hcond : (e.isStatic || e.isSleeping) = false := by
      rw [hs, hsl]
      rfl
    unfold fintegrate
    rw [List.getElem?_map, hk, Option.map_some']
    rw [hcond]
    simp
  · exact fresolveContact_finitePV

/-- A concrete NaN-free entity for the C7 witness. -/
def c7fin : FEntity :=
  ⟨⟨some 1, some 2⟩, ⟨some 3, some 4⟩, false, false, some 0, some 5,
    some 1, some 50, some 100, false⟩

/-- Witness for c7_nan_handling at concrete inputs: the integration
formula applies unconditionally to the NaN-free entity, and a resolved
contact on two copies of it stays NaN-free. -/
theorem c7_nan_handling_witness :
    (([c7fin] : List FEntity)[0]? = some c7fin ∧ c7fin.isStatic = false ∧
      c7fin.isSleeping = false ∧ c7fin.finitePV) ∧
    ((fintegrate (1/60) [c7fin])[0]? = some { c7fin with
      position := c7fin.position.fvadd (c7fin.velocity.fvmul
        (some (1/60))) }) ∧
    (∃ e2, (fresolveContact (fun _ => some 0) 0 1 ⟨some 1, some 0⟩
        (some 0) [c7fin, c7fin])[0]? = some e2 ∧ e2.finitePV) :=
  ⟨⟨rfl, rfl, rfl, ⟨⟨rfl, rfl⟩, ⟨rfl, rfl⟩⟩⟩,
    c7_nan_handling.1 (1/60) [c7fin] 0 c7fin rfl rfl rfl,
    c7_nan_handling.2 (fun _ => some 0) 0 1 ⟨some 1, some 0⟩ (some 0)
      [c7fin, c7fin] 0 c7fin rfl ⟨⟨rfl, rfl⟩, ⟨rfl, rfl⟩⟩⟩
